import Mathlib

/-!
Verification development for the cf-elements attribute-resolution and
style-cascade engine (src/cf-elements.js).

The JavaScript source is shallowly embedded: JS object tables become
association lists, nullable strings become `Option String` (with `none`
for null/undefined and `some ""` for an explicitly empty attribute),
JS truthiness on strings is "non-null and non-empty", and JS numbers in
the scale calculator become rationals with explicit half-up rounding.
-/

namespace CF

/-- JS string truthiness filter: `none` for null/undefined/"" inputs,
otherwise the string itself. Used wherever the source tests `if (x)` on
a string-valued attribute. -/
def tru (o : Option String) : Option String :=
  match o with
  | none => none
  | some s => if s = "" then none else some s

/-- `attr(el, name, fallback)` (source line 952): the attribute value if
present, else the fallback. -/
def attrD (v : Option String) (fallback : String) : String :=
  v.getD fallback

/-- Shadow presets (source `SHADOWS`, lines 219-227). -/
def SHADOWS : List (String × String) :=
  [("none", "none"),
   ("sm", "0 1px 2px rgba(0,0,0,0.05)"),
   ("default", "0 1px 3px rgba(0,0,0,0.1)"),
   ("md", "0 4px 6px rgba(0,0,0,0.1)"),
   ("lg", "0 10px 15px rgba(0,0,0,0.1)"),
   ("xl", "0 20px 25px rgba(0,0,0,0.1)"),
   ("2xl", "0 25px 50px rgba(0,0,0,0.25)")]

/-- Border-radius presets (source `RADIUS`, lines 232-242). -/
def RADIUS : List (String × String) :=
  [("none", "0"), ("sm", "4px"), ("default", "8px"), ("md", "12px"),
   ("lg", "16px"), ("xl", "20px"), ("2xl", "24px"), ("3xl", "32px"),
   ("full", "9999px")]

/-- Line-height presets (source `LINE_HEIGHTS`, lines 247-254). -/
def LINE_HEIGHTS : List (String × String) :=
  [("none", "100%"), ("tight", "110%"), ("snug", "120%"),
   ("normal", "140%"), ("relaxed", "160%"), ("loose", "180%")]

/-- Font-weight presets (source `FONT_WEIGHTS`, lines 259-269). -/
def FONT_WEIGHTS : List (String × String) :=
  [("thin", "100"), ("extralight", "200"), ("light", "300"),
   ("normal", "400"), ("medium", "500"), ("semibold", "600"),
   ("bold", "700"), ("extrabold", "800"), ("black", "900")]

/-- Static font-size presets (source `FONT_SIZES`, lines 275-288). -/
def FONT_SIZES : List (String × String) :=
  [("xs", "12px"), ("s", "14px"), ("sm", "14px"), ("m", "16px"),
   ("md", "16px"), ("l", "20px"), ("lg", "20px"), ("xl", "24px"),
   ("2xl", "32px"), ("3xl", "40px"), ("4xl", "48px"), ("5xl", "64px")]

/-- Row width presets (source `ROW_WIDTHS`, lines 293-298). -/
def ROW_WIDTHS : List (String × String) :=
  [("narrow", "800px"), ("medium", "960px"), ("wide", "1170px"),
   ("extra", "1400px")]

/-- Container width presets (source `CONTAINER_WIDTHS`, lines 303-309). -/
def CONTAINER_WIDTHS : List (String × String) :=
  [("small", "550px"), ("mid", "720px"), ("midWide", "960px"),
   ("wide", "1170px"), ("full", "100%")]

/-- Border-width presets (source `BORDER_WIDTHS`, lines 314-322; the JS
numeric keys are looked up through string coercion). -/
def BORDER_WIDTHS : List (String × String) :=
  [("0", "0"), ("1", "1px"), ("2", "2px"), ("3", "3px"), ("4", "4px"),
   ("6", "6px"), ("8", "8px")]

/-- Background style class table (source `BG_STYLE_CLASSES`, lines 324-334). -/
def BG_STYLE_CLASSES : List (String × String) :=
  [("cover", "bgCover"), ("cover-center", "bgCoverCenter"),
   ("parallax", "bgCoverV2"), ("w100", "bgW100"),
   ("w100h100", "bgW100H100"), ("no-repeat", "bgNoRepeat"),
   ("repeat", "bgRepeat"), ("repeat-x", "bgRepeatX"),
   ("repeat-y", "bgRepeatY")]

/-- All preset tables of the engine (spec section 3 "PresetTable"). -/
def presetTables : List (List (String × String)) :=
  [SHADOWS, RADIUS, LINE_HEIGHTS, FONT_WEIGHTS, FONT_SIZES, ROW_WIDTHS,
   CONTAINER_WIDTHS, BORDER_WIDTHS, BG_STYLE_CLASSES]

/-- `resolve(value, presets)` (source lines 960-963):
`if (!value) return null; return presets[value] || value;`.
The `||` falls through to the raw key when the table stores an empty
string (never the case for the engine's tables). -/
def resolve (value : Option String) (presets : List (String × String)) :
    Option String :=
  match value with
  | none => none
  | some v =>
    if v = "" then none
    else
      match presets.lookup v with
      | some w => some (if w = "" then v else w)
      | none => some v

/-- `resolve(x, T) || x` as used by every renderer call site. -/
def resolveD (v : String) (presets : List (String × String)) : String :=
  match resolve (some v) presets with
  | some w => if w = "" then v else w
  | none => v

/-- The filter+map step of `buildStyle` (source lines 968-973): keep only
entries whose value is neither null/undefined nor the empty string. -/
def styleEntries (o : List (String × Option String)) :
    List (String × String) :=
  o.filterMap (fun p =>
    match p.2 with
    | none => none
    | some v => if v = "" then none else some (p.1, v))

/-- `buildStyle(styleObj)` (source lines 968-973). -/
def buildStyle (o : List (String × Option String)) : String :=
  String.intercalate "; " ((styleEntries o).map (fun p => p.1 ++ ": " ++ p.2))

/-- `getBgStyleClass(bgStyle)` (source lines 982-985). -/
def getBgStyleCls (bgStyle : Option String) : String :=
  match tru bgStyle with
  | none => "bgCoverCenter"
  | some s => resolveD s BG_STYLE_CLASSES

/-- JS object assignment `o[k] = v` on a string-keyed object embedded as
an association list (keys unique): overwrites in place if the key
exists, keeping its insertion position, else appends. -/
def objSet : List (String × Option String) → String → String →
    List (String × Option String)
  | [], k, v => [(k, some v)]
  | p :: l, k, v =>
    if p.1 = k then (k, some v) :: l else p :: objSet l k v

/-- Conditional assignment `if (x) o[k] = x` for a truthy-tested value. -/
def objSetIf (o : List (String × Option String)) (k : String)
    (v : Option String) : List (String × Option String) :=
  match tru v with
  | some s => objSet o k s
  | none => o

/-- A palette entry of the styleguide (`colors`, spec section 3). -/
structure SGColor where
  id : String
  hex : String

/-- A paint theme (`paintThemes` entries). `linkColorId` is optional in the
source (`theme.linkColorId ? ... : null`). -/
structure PaintTheme where
  id : String
  backgroundColorId : String
  headlineColorId : String
  subheadlineColorId : String
  contentColorId : String
  iconColorId : String
  linkColorId : Option String

/-- The typography object; `baseSize`/`scaleRatio` may be absent, in which
case the source destructuring defaults (16 and 1.25) apply. Only the fields
consulted by the embedded functions are modelled. -/
structure Typography where
  baseSize : Option ℚ
  scaleRatio : Option ℚ
  headlineFont : Option String
  subheadlineFont : Option String
  contentFont : Option String

/-- A catalog entry of the shadow/border/corner/button catalogs. Only the
`id` field is consulted by `isStyleguideRef`; the style parameters feed the
generated stylesheet, which is outside this core. -/
structure SGEntry where
  id : String

/-- The styleguide store contents (`this.data` of the manager). Each
top-level key may be absent in the parsed JSON, hence `Option`. -/
structure StyleguideData where
  colors : Option (List SGColor)
  paintThemes : Option (List PaintTheme)
  typography : Option Typography
  shadows : Option (List SGEntry)
  borders : Option (List SGEntry)
  corners : Option (List SGEntry)
  buttons : Option (List SGEntry)

/-- Outcome of `JSON.parse` on the embedded styleguide script. -/
inductive ParseResult (α : Type) where
  | ok : α → ParseResult α
  | err : ParseResult α

/-- `StyleguideManager.init` (source lines 365-384) acting on `this.data`:
an explicit argument wins; otherwise the embedded script is parsed, and a
parse failure leaves the store unchanged (null on a fresh manager). -/
def sgInit (current : Option StyleguideData) (arg : Option StyleguideData)
    (embedded : Option (ParseResult StyleguideData)) :
    Option StyleguideData :=
  match arg with
  | some d => some d
  | none =>
    match embedded with
    | none => current
    | some (.ok d) => some d
    | some .err => current

/-- Whether `init` goes on to call `injectCSS` (and hence the
paint-cascade `applyFontDataAttributes`): a parse failure returns early,
otherwise CSS is injected iff the store is non-null afterwards. -/
def sgInitRunsCascade (current : Option StyleguideData)
    (arg : Option StyleguideData)
    (embedded : Option (ParseResult StyleguideData)) : Bool :=
  match arg with
  | some _ => true
  | none =>
    match embedded with
    | none => (sgInit current none none).isSome
    | some (.ok _) => true
    | some .err => false

/-- `StyleguideManager.getColorHex` (source lines 524-528). -/
def getColorHex (d : Option StyleguideData) (colorId : String) : String :=
  match d with
  | none => "#000000"
  | some sg =>
    match sg.colors with
    | none => "#000000"
    | some cs =>
      match cs.find? (fun c => c.id == colorId) with
      | some c => c.hex
      | none => "#000000"

/-- `StyleguideManager.isStyleguideRef` (source lines 641-658). -/
def isStyleguideRef (d : Option StyleguideData) (value : String)
    (ty : String) : Bool :=
  if value = "" then false
  else
    match d with
    | none => false
    | some sg =>
      match ty with
      | "paint" => (sg.paintThemes.getD []).any (fun t => t.id == value)
      | "shadow" => (sg.shadows.getD []).any (fun s => s.id == value)
      | "border" => (sg.borders.getD []).any (fun b => b.id == value)
      | "corner" => (sg.corners.getD []).any (fun c => c.id == value)
      | "button" => (sg.buttons.getD []).any (fun b => b.id == value)
      | _ => false

/-- `Math.round` on an exact rational: round half up, i.e. the floor of
`q + 1/2`, computed on numerator and denominator. -/
def jsRound (q : ℚ) : ℤ := (2 * q.num + q.den) / (2 * (q.den : ℤ))

/-- `${n}px` for an integral scale step. -/
def pxStr (n : ℤ) : String := toString n ++ "px"

/-- Decimal digit list to a natural number. -/
def digitsToNat (cs : List Char) : ℕ :=
  cs.foldl (fun n c => 10 * n + (c.toNat - 48)) 0

/-- Decimal string of a non-negative rational `num/den` whose reduced
denominator divides a power of ten (the only values the engine's
template-literal stringification meets); greater generality is not needed
and falls back to a fraction spelling. -/
def decStrNN (num : ℕ) (den : ℕ) : String :=
  if den = 1 then toString num
  else
    match (List.range 31).find? (fun k => 10 ^ k % den = 0) with
    | some k =>
      let m := num * (10 ^ k / den)
      let s := toString m
      let s := if s.length ≤ k then
          String.mk (List.replicate (k + 1 - s.length) '0') ++ s
        else s
      s.take (s.length - k) ++ "." ++ s.drop (s.length - k)
    | none => toString num ++ "/" ++ toString den

/-- JS number-to-string for an exact rational (template literal `${x}`). -/
def decStr (q : ℚ) : String :=
  if q < 0 then "-" ++ decStrNN q.num.natAbs q.den
  else decStrNN q.num.natAbs q.den

/-- The three derived size tables of `getTypescale`. -/
structure Typescale where
  headline : List (String × String)
  subheadline : List (String × String)
  paragraph : List (String × String)

/-- `StyleguideManager.getTypescale` (source lines 541-614): twelve
geometric steps around the base (the 0-offset entry is the raw base, the
source interpolates `scale.base` unrounded), mapped to preset keys with
headline highest, subheadline one step down, paragraph two steps down. -/
def getTypescale (d : Option StyleguideData) : Option Typescale :=
  match d with
  | none => none
  | some sg =>
    match sg.typography with
    | none => none
    | some ty =>
      let b := ty.baseSize.getD 16
      let r := ty.scaleRatio.getD (5 / 4)
      let n3 := pxStr (jsRound (b / r ^ (3 : ℕ)))
      let n2 := pxStr (jsRound (b / r ^ (2 : ℕ)))
      let n1 := pxStr (jsRound (b / r))
      let base := decStr b ++ "px"
      let p1 := pxStr (jsRound (b * r))
      let p2 := pxStr (jsRound (b * r ^ (2 : ℕ)))
      let p3 := pxStr (jsRound (b * r ^ (3 : ℕ)))
      let p4 := pxStr (jsRound (b * r ^ (4 : ℕ)))
      let p5 := pxStr (jsRound (b * r ^ (5 : ℕ)))
      let p6 := pxStr (jsRound (b * r ^ (6 : ℕ)))
      let p7 := pxStr (jsRound (b * r ^ (7 : ℕ)))
      let p8 := pxStr (jsRound (b * r ^ (8 : ℕ)))
      some
        { headline :=
            [("5xl", p8), ("4xl", p7), ("3xl", p6), ("2xl", p5),
             ("xl", p4), ("l", p3), ("lg", p3), ("m", p2), ("md", p2),
             ("s", p1), ("sm", p1), ("xs", base)]
          subheadline :=
            [("5xl", p7), ("4xl", p6), ("3xl", p5), ("2xl", p4),
             ("xl", p3), ("l", p2), ("lg", p2), ("m", p1), ("md", p1),
             ("s", base), ("sm", base), ("xs", n1)]
          paragraph :=
            [("5xl", p6), ("4xl", p5), ("3xl", p4), ("2xl", p3),
             ("xl", p2), ("l", p1), ("lg", p1), ("m", base), ("md", base),
             ("s", n1), ("sm", n1), ("xs", n2)] }

/-- `typescale[elementType] || typescale.headline` (source line 627). -/
def scaleFor (ts : Typescale) (elementType : String) :
    List (String × String) :=
  match elementType with
  | "subheadline" => ts.subheadline
  | "paragraph" => ts.paragraph
  | _ => ts.headline

/-- `StyleguideManager.resolveSize` (source lines 623-634): the typescale
entry when a styleguide with typography is active and the preset is in the
element type's table, else the null sentinel for the caller's fallback. -/
def resolveSize (d : Option StyleguideData) (size : String)
    (elementType : String) : Option String :=
  match getTypescale d with
  | none => none
  | some ts =>
    match (scaleFor ts elementType).lookup size with
    | some v => if v = "" then none else some v
    | none => none

/-- The call-site chain `resolveSize(size, ty) || resolve(size,
FONT_SIZES) || size` used by the text renderers (e.g. source line 2199). -/
def resolvedTextSize (d : Option StyleguideData) (elementType : String)
    (size : String) : String :=
  match resolveSize d size elementType with
  | some v => v
  | none =>
    match resolve (some size) FONT_SIZES with
    | some w => w
    | none => size

/-- `BrandAssetsManager.hasAsset` (source lines 935-939). -/
def hasAsset (ba : Option (List (String × List String))) (ty : String) :
    Bool :=
  match ba with
  | none => false
  | some l =>
    match l.lookup ty with
    | none => false
    | some us => decide (us ≠ [])

/-- `BrandAssetsManager.getAssetUrl` (source lines 907-916). -/
def getAssetUrl (ba : Option (List (String × List String))) (ty : String) :
    Option String :=
  match ba with
  | none => none
  | some l =>
    match l.lookup ty with
    | none => none
    | some us => us.head?

/-- The brand-asset swap used by section/row/image renderers: replace the
base value with the active asset URL when present and truthy (e.g. source
lines 2723-2729); the original attribute is kept for the data snapshot. -/
def brandSwap (ba : Option (List (String × List String)))
    (brandAsset : Option String) (base : Option String) : Option String :=
  match tru brandAsset with
  | none => base
  | some b =>
    if hasAsset ba b then
      match getAssetUrl ba b with
      | some u => if u = "" then base else some u
      | none => base
    else base

/-- Animation attribute inputs shared by the renderers
(`buildAnimationAttrs`, source lines 1000-1013). -/
structure AnimIn where
  animation : Option String
  time : Option String
  delay : Option String
  trigger : Option String
  timing : Option String
  direction : Option String
  once : Option String
  loop : Option String

/-- `buildAnimationAttrs` (source lines 1000-1013) as a data-attribute
list; empty when no animation is set. The `once`/`loop` flags are
normalized to `"true"`/`"false"` by the `=== 'true'` comparisons. -/
def buildAnimationAttrs (a : AnimIn) : List (String × String) :=
  match tru a.animation with
  | none => []
  | some an =>
    [("data-skip-animation-settings", "false"),
     ("data-animation-type", an),
     ("data-animation-time", attrD a.time "1000"),
     ("data-animation-delay", attrD a.delay "0"),
     ("data-animation-trigger", attrD a.trigger "load"),
     ("data-animation-timing-function", attrD a.timing "ease"),
     ("data-animation-direction", attrD a.direction "normal"),
     ("data-animation-once", if attrD a.once "true" = "true" then "true" else "false"),
     ("data-animation-loop", if attrD a.loop "false" = "true" then "true" else "false")]

/-- A single optional data attribute: `if (x) attrs += key="x"`. -/
def optAttr (key : String) (x : Option String) : List (String × String) :=
  match tru x with
  | some s => [(key, s)]
  | none => []

/-- A single conditional data attribute. -/
def condAttr (c : Bool) (key v : String) : List (String × String) :=
  if c then [(key, v)] else []

/-- The explicit-color pair of the text renderers (source lines
2218-2220): present only when the attribute was written and non-empty. -/
def colorExplicitAttrs (color : Option String) : List (String × String) :=
  match tru color with
  | some c => [("data-color", c), ("data-color-explicit", "true")]
  | none => []

/-- `<cf-headline>` attribute surface (source lines 2169-2185). `none` is
an absent attribute, `some ""` an attribute written with an empty value. -/
structure HeadlineIn where
  size : Option String
  weight : Option String
  font : Option String
  color : Option String
  align : Option String
  leading : Option String
  tracking : Option String
  transform : Option String
  pt : Option String
  pb : Option String
  mt : Option String
  tag : Option String
  icon : Option String
  iconAlign : Option String
  anim : AnimIn

/-- `CFHeadline.render` wrapper styles (source lines 2190-2195). -/
def headlineWrapperStyles (i : HeadlineIn) : List (String × Option String) :=
  let mt := attrD i.mt "0"
  [("padding-top", some (attrD i.pt "0")),
   ("padding-bottom", some (attrD i.pb "0")),
   ("margin-top", some (if mt = "" then "20px" else mt)),
   ("box-sizing", some "border-box")]

/-- `CFHeadline.render` text styles (source lines 2197-2211): font size
through the three-tier chain, weight/leading through preset tables, the
color only when the attribute was explicitly present (with the forced
`!important` marker). -/
def headlineTextStyles (d : Option StyleguideData) (i : HeadlineIn) :
    List (String × Option String) :=
  let size := attrD i.size "48px"
  let weight := attrD i.weight "bold"
  let align := attrD i.align "center"
  let leading := attrD i.leading "tight"
  let o := [("margin", some "0"),
    ("font-size", some (resolvedTextSize d "headline" size)),
    ("font-weight", some (resolveD weight FONT_WEIGHTS)),
    ("text-align", some align),
    ("line-height", some (resolveD leading LINE_HEIGHTS))]
  let o := match i.color with
    | some c => if c = "" then o else o ++ [("color", some (c ++ " !important"))]
    | none => o
  let o := match tru i.font with
    | some f => o ++ [("font-family", some f)]
    | none => o
  let o := match tru i.tracking with
    | some t => o ++ [("letter-spacing", some t)]
    | none => o
  match tru i.transform with
  | some t => o ++ [("text-transform", some t)]
  | none => o

/-- `CFHeadline.render` data attributes (source lines 2213-2246): every
stored value is the raw input (size keeps the preset key, not the
typescale pixel value), plus the explicit-color marker. -/
def headlineDataAttrs (i : HeadlineIn) : List (String × String) :=
  let size := attrD i.size "48px"
  let weight := attrD i.weight "bold"
  let align := attrD i.align "center"
  let leading := attrD i.leading "tight"
  let pt := attrD i.pt "0"
  let pb := attrD i.pb "0"
  let mt := attrD i.mt "0"
  let iconAlign := attrD i.iconAlign "left"
  [("data-type", "Headline/V1"), ("data-size", size), ("data-weight", weight)]
  ++ colorExplicitAttrs i.color
  ++ [("data-align", align), ("data-leading", leading)]
  ++ optAttr "data-font" i.font
  ++ optAttr "data-tracking" i.tracking
  ++ optAttr "data-transform" i.transform
  ++ condAttr (pt ≠ "0") "data-pt" pt
  ++ condAttr (pb ≠ "0") "data-pb" pb
  ++ condAttr (mt ≠ "0") "data-mt" mt
  ++ (match tru i.icon with
      | some ic =>
        [("data-icon", ic)]
        ++ condAttr (iconAlign ≠ "left") "data-icon-align" iconAlign
      | none => [])
  ++ buildAnimationAttrs i.anim

/-- `<cf-image>` attribute surface (source lines 2696-2713). -/
structure ImageIn where
  src : Option String
  alt : Option String
  width : Option String
  height : Option String
  align : Option String
  rounded : Option String
  corner : Option String
  shadow : Option String
  border : Option String
  borderStyle : Option String
  borderColor : Option String
  objectFit : Option String
  pt : Option String
  pb : Option String
  mt : Option String
  brandAsset : Option String
  anim : AnimIn

/-- `shadow && isStyleguideRef(shadow, "shadow")` for a renderer input. -/
def refFlag (d : Option StyleguideData) (v : Option String) (ty : String) :
    Bool :=
  match tru v with
  | some s => isStyleguideRef d s ty
  | none => false

/-- The shared shadow branch of the container/media renderers:
`if (shadow && !isShadowStyleguide) styles["box-shadow"] = resolve(shadow,
SHADOWS) || shadow`. -/
def shadowStep (d : Option StyleguideData) (shadow : Option String)
    (o : List (String × Option String)) : List (String × Option String) :=
  match tru shadow with
  | some s =>
    if isStyleguideRef d s "shadow" then o
    else objSet o "box-shadow" (resolveD s SHADOWS)
  | none => o

/-- The shared border branch: inline `border-width`/`border-style` only
when the value is not a catalog reference. -/
def borderStep (d : Option StyleguideData) (border borderStyle : Option String)
    (o : List (String × Option String)) : List (String × Option String) :=
  match tru border with
  | some b =>
    if isStyleguideRef d b "border" then o
    else objSet (objSet o "border-width" (resolveD b BORDER_WIDTHS))
      "border-style" (attrD borderStyle "solid")
  | none => o

/-- `CFFlex`'s radius branch (source lines 1988-1991). -/
def flexRadiusStep (d : Option StyleguideData) (rounded corner : Option String)
    (o : List (String × Option String)) : List (String × Option String) :=
  if refFlag d corner "corner" then o
  else
    match tru rounded <|> tru corner with
    | some rc => objSet o "border-radius" (resolveD rc RADIUS)
    | none => o

/-- `CFSection`'s radius branch (source lines 1249-1254), with the
popup-rounded fallback already folded into `rounded`. -/
def sectionRadiusStep (d : Option StyleguideData)
    (rounded corner : Option String) (o : List (String × Option String)) :
    List (String × Option String) :=
  if refFlag d corner "corner" then o
  else
    match tru rounded with
    | some rv => objSet o "border-radius" (resolveD rv RADIUS)
    | none => o

/-- The shared background branch: paint suppresses any inline
background, otherwise a gradient wins over a plain color. -/
def bgStep (paint gradient bg : Option String)
    (o : List (String × Option String)) : List (String × Option String) :=
  if (tru paint).isNone then
    match tru gradient with
    | some g => objSet o "background" g
    | none => objSetIf o "background-color" bg
  else o

/-- `if (p)` padding shorthand of `CFFlex` (all four sides). -/
def pStep (p : Option String) (o : List (String × Option String)) :
    List (String × Option String) :=
  match tru p with
  | some v => objSet (objSet (objSet (objSet o
      "padding-top" v) "padding-bottom" v) "padding-left" v)
      "padding-right" v
  | none => o

/-- `if (px)` horizontal padding shorthand. -/
def pxStep (px : Option String) (o : List (String × Option String)) :
    List (String × Option String) :=
  match tru px with
  | some v => objSet (objSet o "padding-left" v) "padding-right" v
  | none => o

/-- `if (py)` vertical padding shorthand. -/
def pyStep (py : Option String) (o : List (String × Option String)) :
    List (String × Option String) :=
  match tru py with
  | some v => objSet (objSet o "padding-top" v) "padding-bottom" v
  | none => o

/-- The `<img>` src after the brand-asset swap (source lines 2724-2729). -/
def imageSrc (ba : Option (List (String × List String))) (i : ImageIn) :
    String :=
  attrD (brandSwap ba i.brandAsset (some (attrD i.src ""))) ""

/-- `CFImage.render` wrapper styles (source lines 2732-2738). -/
def imageWrapperStyles (i : ImageIn) : List (String × Option String) :=
  [("text-align", some (attrD i.align "center")),
   ("padding-top", some (attrD i.pt "0")),
   ("padding-bottom", some (attrD i.pb "0")),
   ("margin-top", some (attrD i.mt "0")),
   ("box-sizing", some "border-box")]

/-- `needsInnerContainer` (source lines 2740-2744): an extra clipping layer
only when an inline (non-catalog) radius and an inline shadow coexist. -/
def imageNeedsInner (d : Option StyleguideData) (i : ImageIn) : Bool :=
  (!(refFlag d i.corner "corner") && (tru i.rounded <|> tru i.corner).isSome)
  && ((tru i.shadow).isSome && !(refFlag d i.shadow "shadow"))

/-- `resolvedRadius` (source line 2746). -/
def imageResolvedRadius (i : ImageIn) : Option String :=
  match tru i.rounded <|> tru i.corner with
  | some rc => some (resolveD rc RADIUS)
  | none => none

/-- `resolvedShadow` (source line 2747). -/
def imageResolvedShadow (i : ImageIn) : Option String :=
  match tru i.shadow with
  | some s => some (resolveD s SHADOWS)
  | none => none

/-- `innerContainerStyles` (source lines 2749-2755), present only when the
clipping layer is needed. -/
def imageInnerStyles (d : Option StyleguideData) (i : ImageIn) :
    Option (List (String × Option String)) :=
  if imageNeedsInner d i then
    some [("display", some "inline-block"),
          ("border-radius", imageResolvedRadius i),
          ("overflow", some "hidden"),
          ("box-shadow", imageResolvedShadow i),
          ("max-width", some "100%")]
  else none

/-- A single conditional style entry `if (x) styles[key] = x`. -/
def optStyle (key : String) (x : Option String) :
    List (String × Option String) :=
  match tru x with
  | some s => [(key, some s)]
  | none => []

/-- The image border branch (source lines 2777-2781): inline
`border-width`/`border-style` only for a non-catalog value. -/
def imageBorderFrag (d : Option StyleguideData) (i : ImageIn) :
    List (String × Option String) :=
  match tru i.border with
  | some b =>
    if isStyleguideRef d b "border" then []
    else [("border-width", some (resolveD b BORDER_WIDTHS)),
          ("border-style", some (attrD i.borderStyle "solid"))]
  | none => []

/-- `imgStyles` (source lines 2757-2781). -/
def imageImgStyles (d : Option StyleguideData) (i : ImageIn) :
    List (String × Option String) :=
  [("display", some (if imageNeedsInner d i then "block" else "inline-block")),
   ("vertical-align", some "top"),
   ("max-width", some "100%"),
   ("width", some (attrD i.width "100%"))]
  ++ optStyle "height" i.height
  ++ (if !(imageNeedsInner d i) && !(refFlag d i.corner "corner")
        && (tru i.rounded <|> tru i.corner).isSome then
        [("border-radius", imageResolvedRadius i)]
      else [])
  ++ (if !(imageNeedsInner d i) && (tru i.shadow).isSome
        && !(refFlag d i.shadow "shadow") then
        [("box-shadow", imageResolvedShadow i)]
      else [])
  ++ imageBorderFrag d i
  ++ optStyle "border-color" i.borderColor
  ++ optStyle "object-fit" i.objectFit

/-- `CFImage.render` data attributes (source lines 2783-2809): the
original `src` (never the swapped brand-asset URL) and the raw inputs,
plus the persisted catalog ids. -/
def imageDataAttrs (d : Option StyleguideData) (i : ImageIn) :
    List (String × String) :=
  let alt := attrD i.alt ""
  let width := attrD i.width "100%"
  let align := attrD i.align "center"
  let borderStyle := attrD i.borderStyle "solid"
  [("data-type", "Image/V2"), ("data-src", attrD i.src "")]
  ++ condAttr (alt ≠ "") "data-alt" alt
  ++ condAttr (width ≠ "100%") "data-width" width
  ++ optAttr "data-height" i.height
  ++ condAttr (align ≠ "center") "data-align" align
  ++ optAttr "data-rounded" i.rounded
  ++ optAttr "data-corner" i.corner
  ++ optAttr "data-shadow" i.shadow
  ++ optAttr "data-border" i.border
  ++ condAttr (borderStyle ≠ "solid") "data-border-style" borderStyle
  ++ optAttr "data-border-color" i.borderColor
  ++ optAttr "data-object-fit" i.objectFit
  ++ optAttr "data-brand-asset" i.brandAsset
  ++ condAttr (refFlag d i.shadow "shadow") "data-style-guide-shadow"
      (attrD (tru i.shadow) "")
  ++ condAttr (refFlag d i.border "border") "data-style-guide-border"
      (attrD (tru i.border) "")
  ++ condAttr (refFlag d i.corner "corner") "data-style-guide-corner"
      (attrD (tru i.corner) "")
  ++ buildAnimationAttrs i.anim

/-- `parseFloat` restricted to plain decimal literals with optional sign
(the shape of the engine's length attributes such as `"24px"`); returns
`none` where JS yields `NaN`. -/
def jsParseFloat (s : String) : Option ℚ :=
  let cs := s.data
  let signed : ℚ × List Char :=
    match cs with
    | '-' :: t => (-1, t)
    | '+' :: t => (1, t)
    | _ => (1, cs)
  let intPart := signed.2.takeWhile Char.isDigit
  let rest := signed.2.dropWhile Char.isDigit
  let fracPart :=
    match rest with
    | '.' :: t => t.takeWhile Char.isDigit
    | _ => []
  if intPart = [] ∧ fracPart = [] then none
  else some (signed.1 * ((digitsToNat intPart : ℚ)
    + (digitsToNat fracPart : ℚ) / (10 : ℚ) ^ fracPart.length))

/-- `s.endsWith(t)` via the character lists (kernel-friendly). -/
def jsEndsWith (s t : String) : Bool :=
  t.data.isSuffixOf s.data

/-- `s.startsWith(t)` via the character lists (kernel-friendly). -/
def jsStartsWith (s t : String) : Bool :=
  t.data.isPrefixOf s.data

/-- The gap normalization of `CFFlex.render` (source lines 1945-1955):
absolute px lengths are converted to em at 16px = 1em, other values pass
through, and the unset default is `"1.5em"`. -/
def flexGapValue (gap : Option String) : String :=
  match tru gap with
  | none => "1.5em"
  | some g =>
    if jsEndsWith g "px" then
      match jsParseFloat g with
      | some q => decStr (q / 16) ++ "em"
      | none => "NaNem"
    else g

/-- `<cf-flex>` attribute surface (source lines 1868-1893). -/
structure FlexIn where
  elementId : Option String
  direction : Option String
  justify : Option String
  items : Option String
  wrap : Option String
  gap : Option String
  bg : Option String
  gradient : Option String
  paint : Option String
  p : Option String
  px : Option String
  py : Option String
  pt : Option String
  pb : Option String
  mt : Option String
  shadow : Option String
  rounded : Option String
  corner : Option String
  border : Option String
  borderStyle : Option String
  borderColor : Option String
  width : Option String
  height : Option String
  showAttr : Option String

/-- `CFFlex.render` styles (source lines 1903-2001), with the JS object
assignments reproduced through `objSet` (the padding shorthands
overwrite earlier keys in place). -/
def flexStyles (d : Option StyleguideData) (i : FlexIn) :
    List (String × Option String) :=
  let flexDirection :=
    match attrD i.direction "row" with
    | "row" => "row"
    | "col" => "column"
    | "row-reverse" => "row-reverse"
    | "col-reverse" => "column-reverse"
    | _ => "row"
  let justifyContent :=
    match attrD i.justify "start" with
    | "start" => "flex-start"
    | "center" => "center"
    | "end" => "flex-end"
    | "between" => "space-between"
    | "around" => "space-around"
    | "evenly" => "space-evenly"
    | _ => "flex-start"
  let alignItems :=
    match attrD i.items "start" with
    | "start" => "flex-start"
    | "center" => "center"
    | "end" => "flex-end"
    | "stretch" => "stretch"
    | "baseline" => "baseline"
    | _ => "center"
  let o := [("display", some "flex"),
    ("flex-direction", some flexDirection),
    ("justify-content", some justifyContent),
    ("align-items", some alignItems),
    ("box-sizing", some "border-box"),
    ("margin-left", some "auto"),
    ("margin-right", some "auto")]
  let o := if i.wrap = some "true" ∨ i.wrap = some "" then
      objSet o "flex-wrap" "wrap"
    else o
  let o := objSet o "gap" (flexGapValue i.gap)
  let o := bgStep i.paint i.gradient i.bg o
  let o := pStep i.p o
  let o := pxStep i.px o
  let o := pyStep i.py o
  let o := objSetIf o "padding-top" i.pt
  let o := objSetIf o "padding-bottom" i.pb
  let o := objSetIf o "margin-top" i.mt
  let o := shadowStep d i.shadow o
  let o := flexRadiusStep d i.rounded i.corner o
  let o := borderStep d i.border i.borderStyle o
  let o := objSetIf o "border-color" i.borderColor
  let o := objSetIf o "width" i.width
  objSetIf o "height" i.height

/-- `CFFlex.render` data attributes (source lines 2003-2021). `data-gap`
stores `styles["gap"]`, i.e. the em-normalized value, not the raw input;
`data-wrap` is booleanized. -/
def flexDataAttrs (d : Option StyleguideData) (i : FlexIn) :
    List (String × String) :=
  [("data-type", "FlexContainer/V1")]
  ++ optAttr "data-show" i.showAttr
  ++ [("data-direction", attrD i.direction "row"),
      ("data-justify", attrD i.justify "start"),
      ("data-items", attrD i.items "start")]
  ++ condAttr (decide (i.wrap = some "true" ∨ i.wrap = some ""))
      "data-wrap" "true"
  ++ [("data-gap", flexGapValue i.gap)]
  ++ optAttr "data-width" i.width
  ++ optAttr "data-height" i.height
  ++ optAttr "data-paint-colors" i.paint
  ++ condAttr (refFlag d i.shadow "shadow") "data-style-guide-shadow"
      (attrD (tru i.shadow) "")
  ++ condAttr (refFlag d i.border "border") "data-style-guide-border"
      (attrD (tru i.border) "")
  ++ condAttr (refFlag d i.corner "corner") "data-style-guide-corner"
      (attrD (tru i.corner) "")

/-- Character class ending a captured YouTube video id
(`[^&\s?]+` in the source regex, line 992). -/
def ytStop (c : Char) : Bool :=
  c = '&' || c = '?' || c.isWhitespace

/-- Match a literal pattern at the head of the character list, returning
the remainder on success. -/
def ytMatchPat : List Char → List Char → Option (List Char)
  | [], rest => some rest
  | _ :: _, [] => none
  | p :: ps, c :: cs => if c = p then ytMatchPat ps cs else none

/-- Try the three URL shapes of the source regex at this position. -/
def ytTryAt (cs : List Char) : Option (List Char) :=
  ["youtube.com/watch?v=".data, "youtu.be/".data,
   "youtube.com/embed/".data].findSome? (fun p => ytMatchPat p cs)

/-- Left-to-right regex scan: first position where a URL shape matches and
at least one captured character follows. -/
def ytScan : List Char → Option String
  | [] => none
  | c :: cs =>
    match ytTryAt (c :: cs) with
    | some rest =>
      let cap := rest.takeWhile (fun ch => !(ytStop ch))
      if cap = [] then ytScan cs else some (String.mk cap)
    | none => ytScan cs

/-- `extractYouTubeVideoId` (source lines 990-994). -/
def extractYouTubeVideoId (url : String) : Option String :=
  ytScan url.data

/-- `<cf-section>` attribute surface (source lines 1170-1197). -/
structure SectionIn where
  elementId : Option String
  container : Option String
  bg : Option String
  bgImage : Option String
  bgStyle : Option String
  gradient : Option String
  overlay : Option String
  paint : Option String
  pt : Option String
  pb : Option String
  px : Option String
  mt : Option String
  shadow : Option String
  popupRounded : Option String
  rounded : Option String
  corner : Option String
  border : Option String
  borderStyle : Option String
  borderColor : Option String
  showAttr : Option String
  brandAsset : Option String
  videoBg : Option String
  videoBgOverlay : Option String
  videoBgHideMobile : Option String
  videoBgStyle : Option String

/-- The section's effective background image after the brand-asset swap
(source lines 1199-1205). -/
def sectionBgImage (ba : Option (List (String × List String)))
    (i : SectionIn) : Option String :=
  brandSwap ba i.brandAsset i.bgImage

/-- `if (bgImage) styles["background-image"] = url(...)` (source lines
1238-1241). -/
def bgImageStep (x : Option String) (o : List (String × Option String)) :
    List (String × Option String) :=
  match tru x with
  | some u => objSet o "background-image" ("url(" ++ u ++ ")")
  | none => o

/-- `CFSection.render` styles (source lines 1207-1261). -/
def sectionStyles (d : Option StyleguideData)
    (ba : Option (List (String × List String))) (i : SectionIn) :
    List (String × Option String) :=
  let containerWidth :=
    match resolve (some (attrD i.container "full")) CONTAINER_WIDTHS with
    | some w => if w = "" then "1170px" else w
    | none => "1170px"
  let o := [("width", some "100%"),
    ("max-width", some containerWidth),
    ("margin-left", some "auto"),
    ("margin-right", some "auto"),
    ("position", some "relative"),
    ("padding-top", some (attrD i.pt "64px")),
    ("padding-bottom", some (attrD i.pb "64px")),
    ("padding-left", some (attrD i.px "0")),
    ("padding-right", some (attrD i.px "0")),
    ("box-sizing", some "border-box")]
  let o := bgStep i.paint i.gradient i.bg o
  let o := bgImageStep (sectionBgImage ba i) o
  let o := objSetIf o "margin-top" i.mt
  let o := shadowStep d i.shadow o
  let o := sectionRadiusStep d (tru i.rounded <|> tru i.popupRounded)
    i.corner o
  let o := borderStep d i.border i.borderStyle o
  objSetIf o "border-color" i.borderColor

/-- The video-background data attributes (source lines 1286-1305): the
hide-mobile flag is booleanized and the thumbnail URL derived from the
extracted video id. -/
def sectionVideoAttrs (i : SectionIn) : List (String × String) :=
  match tru i.videoBg with
  | some vurl =>
    match extractYouTubeVideoId vurl with
    | some vid =>
      [("data-video-bg-url", vurl),
       ("data-video-bg-type", "youtube"),
       ("data-video-bg-thumbnail",
         "https://img.youtube.com/vi/" ++ vid ++ "/maxresdefault.jpg"),
       ("data-video-bg-hide-mobile",
         if attrD i.videoBgHideMobile "true" = "true" then "true" else "false"),
       ("data-video-bg-style", attrD i.videoBgStyle "fill")]
      ++ (let ov :=
            match tru i.videoBgOverlay with
            | some v => some v
            | none =>
              match tru i.overlay with
              | some v => some v
              | none =>
                match tru i.bg with
                | some b => if jsStartsWith b "rgba" then some b else none
                | none => none
          optAttr "data-video-bg-overlay" ov)
    | none => []
  | none => []

/-- `CFSection.render` data attributes (source lines 1266-1305);
`data-bg-image` stores the original attribute (not the swapped
brand-asset URL), `data-bg-style` the mapped background class name. -/
def sectionDataAttrs (d : Option StyleguideData)
    (ba : Option (List (String × List String))) (i : SectionIn) :
    List (String × String) :=
  let bgStyleCls :=
    if (tru (sectionBgImage ba i)).isSome then getBgStyleCls i.bgStyle else ""
  [("data-type", "SectionContainer/V1"),
   ("data-container", attrD i.container "full")]
  ++ optAttr "data-show" i.showAttr
  ++ condAttr (bgStyleCls ≠ "") "data-bg-style" bgStyleCls
  ++ optAttr "data-overlay" i.overlay
  ++ optAttr "data-bg-image" i.bgImage
  ++ optAttr "data-brand-asset" i.brandAsset
  ++ optAttr "data-paint-colors" i.paint
  ++ condAttr (refFlag d i.shadow "shadow") "data-style-guide-shadow"
      (attrD (tru i.shadow) "")
  ++ condAttr (refFlag d i.border "border") "data-style-guide-border"
      (attrD (tru i.border) "")
  ++ condAttr (refFlag d i.corner "corner") "data-style-guide-corner"
      (attrD (tru i.corner) "")
  ++ sectionVideoAttrs i

/-! ## Paint-cascade post-processor (`applyFontDataAttributes`)

The DOM state the cascade reads is the rendered output: elements carrying
`data-type`, `data-paint-colors`, `data-color`, the explicit markers and
`data-font`. A rendered document is a rose tree of such attribute
records; `el.closest('[data-paint-colors]')` becomes the nearest
enclosing node carrying `data-paint-colors` (the element itself first),
threaded through the recursion as a context. -/

/-- The per-element attributes the cascade pass reads and writes. -/
structure ElAttrs where
  dataType : Option String
  paintColors : Option String
  dataColor : Option String
  colorExplicit : Bool
  textColor : Option String
  textColorExplicit : Bool
  iconColor : Option String
  iconColorExplicit : Bool
  linkColor : Option String
  dataFont : Option String

mutual
inductive ETree where
  | node : ElAttrs → EForest → ETree
inductive EForest where
  | nil : EForest
  | cons : ETree → EForest → EForest
end

/-- The typography-font part of the pass (source lines 419-442): give
headline/subheadline/paragraph elements without a `data-font` the
styleguide font. -/
def applyFontAttrs (ty : Option Typography) (a : ElAttrs) : ElAttrs :=
  match ty with
  | none => a
  | some t =>
    let a := match t.headlineFont with
      | some f =>
        if f = "" then a
        else if a.dataType = some "Headline/V1" ∧ a.dataFont = none then
          { a with dataFont := some f }
        else a
      | none => a
    let a := match t.subheadlineFont with
      | some f =>
        if f = "" then a
        else if a.dataType = some "SubHeadline/V1" ∧ a.dataFont = none then
          { a with dataFont := some f }
        else a
      | none => a
    match t.contentFont with
    | some f =>
      if f = "" then a
      else if a.dataType = some "Paragraph/V1" ∧ a.dataFont = none then
        { a with dataFont := some f }
      else a
    | none => a

/-- The theme that ends up applied for a given `data-paint-colors` id:
`paintThemes.forEach` lets a later theme with the same id overwrite an
earlier one, so the last match wins. -/
def themeFor (themes : List PaintTheme) (pid : String) : Option PaintTheme :=
  themes.foldl (fun acc t => if t.id = pid then some t else acc) none

/-- One theme applied to one element (source lines 459-515): role color
per `data-type` unless the element carries the explicit marker; the link
color (when the theme has one) is set unconditionally, and icons get no
link color. -/
def applyThemeAttrs (d : Option StyleguideData) (th : PaintTheme)
    (a : ElAttrs) : ElAttrs :=
  let linkColor : Option String :=
    match th.linkColorId with
    | some lid => some (getColorHex d lid)
    | none => none
  let withLink : ElAttrs → ElAttrs := fun a =>
    match linkColor with
    | some lc => { a with linkColor := some lc }
    | none => a
  match a.dataType with
  | some "Headline/V1" =>
    withLink (if a.colorExplicit then a
      else { a with dataColor := some (getColorHex d th.headlineColorId) })
  | some "SubHeadline/V1" =>
    withLink (if a.colorExplicit then a
      else { a with dataColor := some (getColorHex d th.subheadlineColorId) })
  | some "Paragraph/V1" =>
    withLink (if a.colorExplicit then a
      else { a with dataColor := some (getColorHex d th.contentColorId) })
  | some "Icon/V1" =>
    if a.colorExplicit then a
    else { a with dataColor := some (getColorHex d th.iconColorId) }
  | some "BulletList/V1" =>
    let a := if a.textColorExplicit then a
      else { a with textColor := some (getColorHex d th.contentColorId) }
    let a := if a.iconColorExplicit then a
      else { a with iconColor := some (getColorHex d th.iconColorId) }
    withLink a
  | _ => a

/-- The whole pass on one element given the nearest strict ancestor with
`data-paint-colors` (`ctx`): fonts first, then the paint-theme colors.
An element carrying `data-paint-colors` itself is its own `closest`
match, never equal to a strictly containing selected container, so it is
not colored. -/
def cascadeAttrs (d : Option StyleguideData) (ctx : Option String)
    (a : ElAttrs) : ElAttrs :=
  match d with
  | none => a
  | some sg =>
    let a1 := applyFontAttrs sg.typography a
    if a1.paintColors.isSome then a1
    else
      match ctx with
      | none => a1
      | some pid =>
        match sg.paintThemes with
        | none => a1
        | some [] => a1
        | some themes =>
          match themeFor themes pid with
          | some th => applyThemeAttrs (some sg) th a1
          | none => a1

mutual
/-- `applyFontDataAttributes` over a rendered tree, threading the nearest
strict-ancestor paint container id. -/
def cascadeTree (d : Option StyleguideData) (ctx : Option String) :
    ETree → ETree
  | .node a f =>
    let ctx' := match a.paintColors with
      | some p => some p
      | none => ctx
    .node (cascadeAttrs d ctx a) (cascadeForest d ctx' f)
def cascadeForest (d : Option StyleguideData) (ctx : Option String) :
    EForest → EForest
  | .nil => .nil
  | .cons t f => .cons (cascadeTree d ctx t) (cascadeForest d ctx f)
end

mutual
/-- Attributes of the node at a child-index path. -/
def treeAttrsAt : ETree → List ℕ → Option ElAttrs
  | .node a _, [] => some a
  | .node _ f, i :: p => forestAttrsAt f i p
def forestAttrsAt : EForest → ℕ → List ℕ → Option ElAttrs
  | .nil, _, _ => none
  | .cons t _, 0, p => treeAttrsAt t p
  | .cons _ f, i + 1, p => forestAttrsAt f i p
end

mutual
/-- The nearest strict-ancestor paint id of the node at a path, starting
from an outer context (the node's own attribute does not count). -/
def treeCtxAt (ctx : Option String) : ETree → List ℕ → Option (Option String)
  | .node _ _, [] => some ctx
  | .node a f, i :: p =>
    forestCtxAt (match a.paintColors with
      | some q => some q
      | none => ctx) f i p
def forestCtxAt (ctx : Option String) :
    EForest → ℕ → List ℕ → Option (Option String)
  | .nil, _, _ => none
  | .cons t _, 0, p => treeCtxAt ctx t p
  | .cons _ f, i + 1, p => forestCtxAt ctx f i p
end

/-! ## Rendering scheduler (`initFunnelWind`)

The document before rendering is a rose tree of custom-element nodes and
raw markup. `initFunnelWind` (source lines 4586-4640) processes one tag
kind at a time in a fixed order; `querySelectorAll` enumerates a kind's
instances in document order, and `el.outerHTML = ...` replaces the
element by its rendered markup, which captures the current serialization
of its children. The per-kind HTML templates are abstracted by a render
family `R : Kind → String → String` applied to the captured content. -/

/-- The custom-element tag kinds, in the source's registry. -/
inductive Kind where
  | icon | divider | image | video | headline | subheadline | paragraph
  | button | inputEl | textarea | selectEl | checkbox | bulletList
  | progressBar | videoPopup | countdown | checkoutPh | orderSummaryPh
  | confirmationPh | flex | colInner | col | row | sectionEl | popup | page
deriving DecidableEq, Repr, Fintype

/-- The fixed processing order of `initFunnelWind` (source lines
4588-4618): atomic content tags, then placeholders, then containers from
innermost to outermost. -/
def tagOrder : List Kind :=
  [.icon, .divider, .image, .video, .headline, .subheadline, .paragraph,
   .button, .inputEl, .textarea, .selectEl, .checkbox, .bulletList,
   .progressBar, .videoPopup, .countdown, .checkoutPh, .orderSummaryPh,
   .confirmationPh, .flex, .colInner, .col, .row, .sectionEl, .popup, .page]

/-- Position of a kind in the processing order. -/
def kindRank : Kind → ℕ
  | .icon => 0 | .divider => 1 | .image => 2 | .video => 3
  | .headline => 4 | .subheadline => 5 | .paragraph => 6 | .button => 7
  | .inputEl => 8 | .textarea => 9 | .selectEl => 10 | .checkbox => 11
  | .bulletList => 12 | .progressBar => 13 | .videoPopup => 14
  | .countdown => 15 | .checkoutPh => 16 | .orderSummaryPh => 17
  | .confirmationPh => 18 | .flex => 19 | .colInner => 20 | .col => 21
  | .row => 22 | .sectionEl => 23 | .popup => 24 | .page => 25

/-- The atomic/content tag kinds of the claim (icon, divider, image,
video, the text tags, button, the form fields, bullet list, progress
bar, video popup, countdown). -/
def atomicKind : Kind → Bool
  | .icon | .divider | .image | .video | .headline | .subheadline
  | .paragraph | .button | .inputEl | .textarea | .selectEl | .checkbox
  | .bulletList | .progressBar | .videoPopup | .countdown => true
  | _ => false

/-- The structural container tag kinds of the claim (flex, inner column,
column, row, section, popup/modal, page). -/
def containerKind : Kind → Bool
  | .flex | .colInner | .col | .row | .sectionEl | .popup | .page => true
  | _ => false

/-- The source tag name of a kind, used when serializing an unrendered
element back into markup. -/
def tagName : Kind → String
  | .icon => "cf-icon" | .divider => "cf-divider" | .image => "cf-image"
  | .video => "cf-video" | .headline => "cf-headline"
  | .subheadline => "cf-subheadline" | .paragraph => "cf-paragraph"
  | .button => "cf-button" | .inputEl => "cf-input"
  | .textarea => "cf-textarea" | .selectEl => "cf-select"
  | .checkbox => "cf-checkbox" | .bulletList => "cf-bullet-list"
  | .progressBar => "cf-progress-bar" | .videoPopup => "cf-video-popup"
  | .countdown => "cf-countdown" | .checkoutPh => "cf-checkout-placeholder"
  | .orderSummaryPh => "cf-order-summary-placeholder"
  | .confirmationPh => "cf-confirmation-placeholder" | .flex => "cf-flex"
  | .colInner => "cf-col-inner" | .col => "cf-col" | .row => "cf-row"
  | .sectionEl => "cf-section" | .popup => "cf-popup" | .page => "cf-page"

mutual
/-- A document node: already-final markup, or an unrendered custom
element with its ordered children. -/
inductive DocNode where
  | raw : String → DocNode
  | cf : Kind → DocForest → DocNode
inductive DocForest where
  | nil : DocForest
  | cons : DocNode → DocForest → DocForest
end

/-- A per-kind render family: the markup a renderer of kind `k` emits
around (or in place of, for the void media elements) its captured
content. -/
abbrev RenderFam := Kind → String → String

mutual
/-- `innerHTML`/`outerHTML` serialization of the current document. -/
def serializeNode : DocNode → String
  | .raw s => s
  | .cf k f =>
    "<" ++ tagName k ++ ">" ++ serializeForest f ++ "</" ++ tagName k ++ ">"
def serializeForest : DocForest → String
  | .nil => ""
  | .cons n f => serializeNode n ++ serializeForest f
end

mutual
/-- One `tagOrder` step: every `cf k` node (document order, outer first)
is replaced by its rendered markup, capturing its children's current
serialization; other nodes are recursed into, raw markup is untouched. -/
def passNode (R : RenderFam) (k : Kind) : DocNode → DocNode
  | .raw s => .raw s
  | .cf k' f =>
    if k' = k then .raw (R k (serializeForest f))
    else .cf k' (passForest R k f)
def passForest (R : RenderFam) (k : Kind) : DocForest → DocForest
  | .nil => .nil
  | .cons n f => .cons (passNode R k n) (passForest R k f)
end

/-- A render event: the kind rendered, the instance's path (child
indices from the root), and the content captured at render time. -/
abbrev TraceEvent := Kind × List ℕ × String

mutual
/-- The events emitted by one pass, in execution order. -/
def traceNode (k : Kind) (p : List ℕ) : DocNode → List TraceEvent
  | .raw _ => []
  | .cf k' f =>
    if k' = k then [(k, p, serializeForest f)] else traceForest k p 0 f
def traceForest (k : Kind) (p : List ℕ) (i : ℕ) :
    DocForest → List TraceEvent
  | .nil => []
  | .cons n f => traceNode k (p ++ [i]) n ++ traceForest k p (i + 1) f
end

/-- Run the passes for a list of kinds in order. -/
def runPasses (R : RenderFam) : List Kind → DocNode → DocNode
  | [], d => d
  | k :: ks, d => runPasses R ks (passNode R k d)

/-- The concatenated event trace of the passes. -/
def runTrace (R : RenderFam) : List Kind → DocNode → List TraceEvent
  | [], _ => []
  | k :: ks, d => traceNode k [] d ++ runTrace R ks (passNode R k d)

/-- `initFunnelWind` on a document. -/
def initFunnelWindDoc (R : RenderFam) (d : DocNode) : DocNode :=
  runPasses R tagOrder d

/-- The full event trace of `initFunnelWind`. -/
def initFunnelWindTrace (R : RenderFam) (d : DocNode) : List TraceEvent :=
  runTrace R tagOrder d

mutual
/-- The node at a child-index path of the current document. -/
def nodeAt : DocNode → List ℕ → Option DocNode
  | n, [] => some n
  | .raw _, _ :: _ => none
  | .cf _ f, i :: p => forestNodeAt f i p
def forestNodeAt : DocForest → ℕ → List ℕ → Option DocNode
  | .nil, _, _ => none
  | .cons n _, 0, p => nodeAt n p
  | .cons _ f, i + 1, p => forestNodeAt f i p
end

/-- The i-th child of a forest. -/
def forestGet : DocForest → ℕ → Option DocNode
  | .nil, _ => none
  | .cons n _, 0 => some n
  | .cons _ f, i + 1 => forestGet f i

/-- Document (preorder) strict order on child-index paths: a node
precedes its descendants and any node of a later sibling branch. -/
def pathLt : List ℕ → List ℕ → Bool
  | _, [] => false
  | [], _ :: _ => true
  | a :: as, b :: bs =>
    if a < b then true else if a = b then pathLt as bs else false

/-- The observable steps of the auto-initialization handler (source lines
4698-4724): `styleguideManager.init()` — which runs `injectCSS` and with
it the paint cascade when styleguide data is available — and then
`initFunnelWind()`'s render steps. -/
inductive InitEvent where
  | cascade : InitEvent
  | render : Kind → List ℕ → InitEvent
deriving DecidableEq, Repr

/-- The event sequence of the auto-initialization path on a document. -/
def autoInitEvents (R : RenderFam) (current arg : Option StyleguideData)
    (embedded : Option (ParseResult StyleguideData)) (d : DocNode) :
    List InitEvent :=
  (if sgInitRunsCascade current arg embedded then [InitEvent.cascade] else [])
  ++ (initFunnelWindTrace R d).map (fun e => InitEvent.render e.1 e.2.1)

/-! ## Concrete example inputs used by witnesses and counterexamples -/

/-- An animation input with no attributes set. -/
def noAnim : AnimIn := ⟨none, none, none, none, none, none, none, none⟩

/-- A `<cf-headline>` with no attributes set. -/
def emptyHeadlineIn : HeadlineIn :=
  ⟨none, none, none, none, none, none, none, none, none, none, none,
   none, none, none, noAnim⟩

/-- A `<cf-image>` with no attributes set. -/
def emptyImageIn : ImageIn :=
  ⟨none, none, none, none, none, none, none, none, none, none, none,
   none, none, none, none, none, noAnim⟩

/-- A `<cf-flex>` with no attributes set. -/
def emptyFlexIn : FlexIn :=
  ⟨none, none, none, none, none, none, none, none, none, none, none,
   none, none, none, none, none, none, none, none, none, none, none,
   none, none⟩

/-- A `<cf-section>` with no attributes set. -/
def emptySectionIn : SectionIn :=
  ⟨none, none, none, none, none, none, none, none, none, none, none,
   none, none, none, none, none, none, none, none, none, none, none,
   none, none, none⟩

/-- A small styleguide: a two-color palette, one paint theme, one entry
in each style catalog, and default typography. -/
def sgDemo : StyleguideData :=
  { colors := some [⟨"c1", "#111111"⟩, ⟨"c2", "#eeeeee"⟩]
    paintThemes := some [⟨"dark", "c1", "c2", "c2", "c2", "c2", none⟩]
    typography := some ⟨some 16, some (5 / 4), none, none, none⟩
    shadows := some [⟨"style1"⟩]
    borders := some [⟨"style1"⟩]
    corners := some [⟨"style1"⟩]
    buttons := some [⟨"style1"⟩] }

/-- A styleguide whose typography has a fractional base size. -/
def sgHalf : StyleguideData :=
  { colors := none
    paintThemes := none
    typography := some ⟨some (33 / 2), some (5 / 4), none, none, none⟩
    shadows := none
    borders := none
    corners := none
    buttons := none }

/-- A styleguide with two paint themes (used by the sibling-cascade
witness): `dark` colors headlines with `c1`, `light` with `c2`. -/
def sgPaint : StyleguideData :=
  { colors := some [⟨"c1", "#111111"⟩, ⟨"c2", "#eeeeee"⟩]
    paintThemes := some [⟨"dark", "c2", "c1", "c1", "c1", "c1", none⟩,
                         ⟨"light", "c1", "c2", "c2", "c2", "c2", none⟩]
    typography := none
    shadows := none
    borders := none
    corners := none
    buttons := none }

/-- An element-attribute record with nothing set. -/
def plainAttrs : ElAttrs :=
  ⟨none, none, none, false, none, false, none, false, none, none⟩

/-- A rendered headline without the explicit-color marker. -/
def headlineAttrs : ElAttrs :=
  { plainAttrs with
    dataType := some "Headline/V1", dataColor := some "#abc" }

/-- A rendered headline carrying the explicit-color marker. -/
def headlineAttrsExp : ElAttrs :=
  { headlineAttrs with
    colorExplicit := true }

/-- Two sibling paint containers: `dark` holds a non-explicit and an
explicit headline, `light` holds a non-explicit headline. -/
def siblingPaintTree : ETree :=
  .node plainAttrs
    (.cons (.node { plainAttrs with
        paintColors := some "dark" }
        (.cons (.node headlineAttrs .nil)
          (.cons (.node headlineAttrsExp .nil) .nil)))
      (.cons (.node { plainAttrs with
          paintColors := some "light" }
          (.cons (.node headlineAttrs .nil) .nil))
        .nil))

/-! ## Helper lemmas -/

theorem lookup_append {α β : Type} [BEq α] (l₁ l₂ : List (α × β)) (a : α) :
    (l₁ ++ l₂).lookup a = (l₁.lookup a).or (l₂.lookup a) := by
  induction l₁ with
  | nil => simp [List.lookup]
  | cons p l ih =>
    cases p with
    | mk k b =>
      simp only [List.cons_append, List.lookup]
      cases h : a == k <;> simp [h, ih]

theorem lookup_mem {β : Type} (l : List (String × β)) (a : String) (b : β)
    (h : l.lookup a = some b) : (a, b) ∈ l := by
  induction l with
  | nil => simp [List.lookup] at h
  | cons p l ih =>
    cases p with
    | mk k v =>
      simp only [List.lookup] at h
      cases hk : a == k with
      | true =>
        rw [hk] at h
        simp at h
        subst h
        have : a = k := by
          have := of_decide_eq_true hk
          exact this
        subst this
        exact List.mem_cons_self _ _
      | false =>
        rw [hk] at h
        simp at h
        exact List.mem_cons_of_mem _ (ih h)

theorem lookup_objSet_self (o : List (String × Option String)) (k : String)
    (v : String) : (objSet o k v).lookup k = some (some v) := by
  induction o with
  | nil => simp [objSet, List.lookup]
  | cons p l ih =>
    by_cases hk : p.1 = k
    · simp [objSet, hk, List.lookup]
    · simp only [objSet, if_neg hk, List.lookup]
      rw [show (k == p.1) = false by simp [Ne.symm hk]]
      exact ih

theorem lookup_objSet_ne (o : List (String × Option String)) (k v k' : String)
    (h : k' ≠ k) : (objSet o k v).lookup k' = o.lookup k' := by
  induction o with
  | nil =>
    simp only [objSet, List.lookup]
    rw [show (k' == k) = false by simp [h]]
  | cons p l ih =>
    by_cases hk : p.1 = k
    · simp only [objSet, if_pos hk, List.lookup]
      rw [show (k' == k) = false by simp [h],
        show (k' == p.1) = false by simp [hk ▸ h]]
    · simp only [objSet, if_neg hk, List.lookup]
      cases hx : k' == p.1 <;> simp [ih]

theorem lookup_objSetIf_ne (o : List (String × Option String)) (k : String)
    (x : Option String) (k' : String) (h : k' ≠ k) :
    (objSetIf o k x).lookup k' = o.lookup k' := by
  unfold objSetIf
  cases tru x with
  | none => rfl
  | some s => exact lookup_objSet_ne o k s k' h

theorem lookup_cons_ne {β : Type} (k : String) (v : β)
    (l : List (String × β)) (tgt : String) (h : tgt ≠ k) :
    ((k, v) :: l).lookup tgt = l.lookup tgt := by
  simp only [List.lookup]
  rw [show (tgt == k) = false by simp [h]]

theorem lookup_cons_self {β : Type} (k : String) (v : β)
    (l : List (String × β)) : ((k, v) :: l).lookup k = some v := by
  simp [List.lookup]

theorem jsRound_eq_floor (q : ℚ) : jsRound q = ⌊q + 1 / 2⌋ := by
  have hq : q * (q.den : ℚ) = (q.num : ℚ) := by
    rw [mul_comm, Rat.den_mul_eq_num]
  have key : q + 1 / 2
      = ((2 * q.num + (q.den : ℤ) : ℤ) : ℚ) / ((2 * q.den : ℕ) : ℚ) := by
    push_cast
    rw [eq_div_iff (by positivity)]
    ring_nf
    linear_combination 2 * hq
  rw [key, Rat.floor_intCast_div_natCast]
  unfold jsRound
  push_cast
  rfl

theorem jsRound_eq_round (q : ℚ) : jsRound q = round q := by
  rw [round_eq, jsRound_eq_floor]

theorem rat_num_den_of_coprime (n : ℤ) (d : ℕ) (hd : d ≠ 0)
    (hco : n.natAbs.Coprime d) :
    ((n : ℚ) / (d : ℚ)).num = n ∧ ((n : ℚ) / (d : ℚ)).den = d := by
  have h : ((n : ℚ) / (d : ℚ)) = Rat.mk' n d hd hco := by
    rw [Rat.mk'_eq_divInt, Rat.divInt_eq_div]
    norm_cast
  rw [h]
  exact ⟨rfl, rfl⟩

theorem decStr_natCast (n : ℕ) : decStr ((n : ℕ) : ℚ) = toString n := by
  have h1 : ¬((n : ℚ) < 0) := by
    simp
  simp [decStr, decStrNN, h1, Rat.num_natCast, Rat.den_natCast]

theorem lookup_optAttr_ne (key : String) (x : Option String) (tgt : String)
    (h : tgt ≠ key) : (optAttr key x).lookup tgt = none := by
  cases hx : tru x with
  | none => simp [optAttr, hx, List.lookup]
  | some s =>
    simp only [optAttr, hx, List.lookup]
    rw [show (tgt == key) = false by simp [h]]

theorem lookup_optAttr_self (key : String) (x : Option String) :
    (optAttr key x).lookup key = tru x := by
  cases hx : tru x <;> simp [optAttr, hx, List.lookup]

theorem lookup_condAttr_ne (c : Bool) (key v tgt : String) (h : tgt ≠ key) :
    (condAttr c key v).lookup tgt = none := by
  unfold condAttr
  cases c
  · rfl
  · simp only [if_true, List.lookup]
    rw [show (tgt == key) = false by simp [h]]

theorem lookup_condAttr_self (c : Bool) (key v : String) :
    (condAttr c key v).lookup key = if c then some v else none := by
  unfold condAttr
  cases c <;> simp [List.lookup]

theorem lookup_colorExplicitAttrs_ne (color : Option String) (tgt : String)
    (h1 : tgt ≠ "data-color") (h2 : tgt ≠ "data-color-explicit") :
    (colorExplicitAttrs color).lookup tgt = none := by
  cases hc : tru color with
  | none => simp [colorExplicitAttrs, hc, List.lookup]
  | some c =>
    simp only [colorExplicitAttrs, hc, List.lookup]
    rw [show (tgt == "data-color") = false by simp [h1],
      show (tgt == "data-color-explicit") = false by simp [h2]]

theorem lookup_shadowStep_ne (d : Option StyleguideData) (sh : Option String)
    (o : List (String × Option String)) (tgt : String)
    (h : tgt ≠ "box-shadow") :
    (shadowStep d sh o).lookup tgt = o.lookup tgt := by
  cases htr : tru sh with
  | none => simp only [shadowStep, htr]
  | some s =>
    simp only [shadowStep, htr]
    by_cases hsg : isStyleguideRef d s "shadow" = true
    · rw [if_pos hsg]
    · rw [if_neg hsg]
      exact lookup_objSet_ne o "box-shadow" _ tgt h

theorem lookup_shadowStep_sg (d : Option StyleguideData) (sh : Option String)
    (o : List (String × Option String)) (tgt : String)
    (hsg : refFlag d sh "shadow" = true) :
    (shadowStep d sh o).lookup tgt = o.lookup tgt := by
  unfold shadowStep
  unfold refFlag at hsg
  cases htr : tru sh with
  | none => simp only [shadowStep, htr]
  | some s =>
    rw [htr] at hsg
    simp only at hsg
    simp only [shadowStep, htr]
    rw [if_pos hsg]

theorem lookup_borderStep_ne (d : Option StyleguideData)
    (b bs : Option String) (o : List (String × Option String)) (tgt : String)
    (h1 : tgt ≠ "border-width") (h2 : tgt ≠ "border-style") :
    (borderStep d b bs o).lookup tgt = o.lookup tgt := by
  cases htr : tru b with
  | none => simp only [borderStep, htr]
  | some s =>
    simp only [borderStep, htr]
    by_cases hsg : isStyleguideRef d s "border" = true
    · rw [if_pos hsg]
    · rw [if_neg hsg]
      rw [lookup_objSet_ne _ _ _ _ h2, lookup_objSet_ne _ _ _ _ h1]

theorem lookup_borderStep_sg (d : Option StyleguideData)
    (b bs : Option String) (o : List (String × Option String)) (tgt : String)
    (hsg : refFlag d b "border" = true) :
    (borderStep d b bs o).lookup tgt = o.lookup tgt := by
  unfold borderStep
  unfold refFlag at hsg
  cases htr : tru b with
  | none => simp only [borderStep, htr]
  | some s =>
    rw [htr] at hsg
    simp only at hsg
    simp only [borderStep, htr]
    rw [if_pos hsg]

theorem lookup_flexRadiusStep_ne (d : Option StyleguideData)
    (r c : Option String) (o : List (String × Option String)) (tgt : String)
    (h : tgt ≠ "border-radius") :
    (flexRadiusStep d r c o).lookup tgt = o.lookup tgt := by
  by_cases hf : refFlag d c "corner" = true
  · simp only [flexRadiusStep]
    rw [if_pos hf]
  · simp only [flexRadiusStep]
    rw [if_neg hf]
    cases hrc : tru r <|> tru c with
    | none => simp only [hrc]
    | some rc =>
      simp only [hrc]
      exact lookup_objSet_ne o "border-radius" _ tgt h

theorem lookup_flexRadiusStep_sg (d : Option StyleguideData)
    (r c : Option String) (o : List (String × Option String)) (tgt : String)
    (hsg : refFlag d c "corner" = true) :
    (flexRadiusStep d r c o).lookup tgt = o.lookup tgt := by
  unfold flexRadiusStep
  rw [if_pos hsg]

theorem lookup_sectionRadiusStep_ne (d : Option StyleguideData)
    (r c : Option String) (o : List (String × Option String)) (tgt : String)
    (h : tgt ≠ "border-radius") :
    (sectionRadiusStep d r c o).lookup tgt = o.lookup tgt := by
  by_cases hf : refFlag d c "corner" = true
  · simp only [sectionRadiusStep]
    rw [if_pos hf]
  · simp only [sectionRadiusStep]
    rw [if_neg hf]
    cases hrv : tru r with
    | none => simp only [hrv]
    | some rv =>
      simp only [hrv]
      exact lookup_objSet_ne o "border-radius" _ tgt h

theorem lookup_sectionRadiusStep_sg (d : Option StyleguideData)
    (r c : Option String) (o : List (String × Option String)) (tgt : String)
    (hsg : refFlag d c "corner" = true) :
    (sectionRadiusStep d r c o).lookup tgt = o.lookup tgt := by
  unfold sectionRadiusStep
  rw [if_pos hsg]

theorem lookup_bgStep_ne (paint g bg : Option String)
    (o : List (String × Option String)) (tgt : String)
    (h1 : tgt ≠ "background") (h2 : tgt ≠ "background-color") :
    (bgStep paint g bg o).lookup tgt = o.lookup tgt := by
  unfold bgStep
  by_cases hp : (tru paint).isNone = true
  · rw [if_pos hp]
    cases hg : tru g with
    | none =>
      simp only [hg]
      exact lookup_objSetIf_ne o _ _ tgt h2
    | some gr =>
      simp only [hg]
      exact lookup_objSet_ne o _ _ tgt h1
  · rw [if_neg hp]

theorem lookup_pStep_ne (p : Option String)
    (o : List (String × Option String)) (tgt : String)
    (h1 : tgt ≠ "padding-top") (h2 : tgt ≠ "padding-bottom")
    (h3 : tgt ≠ "padding-left") (h4 : tgt ≠ "padding-right") :
    (pStep p o).lookup tgt = o.lookup tgt := by
  cases hp : tru p with
  | none => simp only [pStep, hp]
  | some v =>
    simp only [pStep, hp]
    rw [lookup_objSet_ne _ _ _ _ h4, lookup_objSet_ne _ _ _ _ h3,
      lookup_objSet_ne _ _ _ _ h2, lookup_objSet_ne _ _ _ _ h1]

theorem lookup_pxStep_ne (px : Option String)
    (o : List (String × Option String)) (tgt : String)
    (h3 : tgt ≠ "padding-left") (h4 : tgt ≠ "padding-right") :
    (pxStep px o).lookup tgt = o.lookup tgt := by
  cases hp : tru px with
  | none => simp only [pxStep, hp]
  | some v =>
    simp only [pxStep, hp]
    rw [lookup_objSet_ne _ _ _ _ h4, lookup_objSet_ne _ _ _ _ h3]

theorem lookup_pyStep_ne (py : Option String)
    (o : List (String × Option String)) (tgt : String)
    (h1 : tgt ≠ "padding-top") (h2 : tgt ≠ "padding-bottom") :
    (pyStep py o).lookup tgt = o.lookup tgt := by
  cases hp : tru py with
  | none => simp only [pyStep, hp]
  | some v =>
    simp only [pyStep, hp]
    rw [lookup_objSet_ne _ _ _ _ h2, lookup_objSet_ne _ _ _ _ h1]

theorem refFlag_none (v : Option String) (ty : String) :
    refFlag none v ty = false := by
  cases h : tru v with
  | none => simp [refFlag, h]
  | some s => simp [refFlag, h, isStyleguideRef]

/-! ## Claim theorems -/

/-- C8: for every preset table `T` and key `k`, `resolve(k, T)` is `T[k]`
when `k` is a key of `T` and `k` itself otherwise; an absent or
empty-string key yields the null sentinel; resolution is a total
function (no error path exists). -/
theorem c8_resolve_lookup_fallback (T : List (String × String))
    (hT : T ∈ presetTables) (k : String) (hk : k ≠ "") :
    (∀ v, T.lookup k = some v → resolve (some k) T = some v)
    ∧ (T.lookup k = none → resolve (some k) T = some k)
    ∧ resolve (some "") T = none
    ∧ resolve none T = none := by
  have hvals : ∀ p ∈ T, p.2 ≠ "" := by
    simp only [presetTables, List.mem_cons, List.not_mem_nil, or_false] at hT
    rcases hT with rfl | rfl | rfl | rfl | rfl | rfl | rfl | rfl | rfl
      <;> decide
  refine ⟨?_, ?_, by simp [resolve], by simp [resolve]⟩
  · intro v hv
    have hvne : v ≠ "" := hvals (k, v) (lookup_mem T k v hv)
    simp [resolve, hk, hv, hvne]
  · intro hnone
    simp [resolve, hk, hnone]

/-- Witness for C8 at the font-size table and key "xl". -/
theorem c8_resolve_lookup_fallback_witness :
    resolve (some "xl") FONT_SIZES = some "24px"
    ∧ resolve (some "97px") FONT_SIZES = some "97px" :=
  ⟨(c8_resolve_lookup_fallback FONT_SIZES (by decide) "xl" (by decide)).1
      "24px" (by decide),
   (c8_resolve_lookup_fallback FONT_SIZES (by decide) "97px"
      (by decide)).2.1 (by decide)⟩

/-- C10: `buildStyle` emits exactly the declarations whose values are
non-null and non-empty — an entry with a null/undefined or empty value
contributes nothing, so no declaration with an empty value is ever
emitted by a renderer's style string. -/
theorem c10_buildStyle_omits_empty (o : List (String × Option String)) :
    buildStyle o
      = String.intercalate "; "
          ((styleEntries o).map (fun p => p.1 ++ ": " ++ p.2))
    ∧ (∀ p ∈ styleEntries o, p.2 ≠ "" ∧ (p.1, some p.2) ∈ o)
    ∧ (∀ o₁ o₂ k, o = o₁ ++ (k, none) :: o₂ →
        styleEntries o = styleEntries (o₁ ++ o₂))
    ∧ (∀ o₁ o₂ k, o = o₁ ++ (k, some "") :: o₂ →
        styleEntries o = styleEntries (o₁ ++ o₂)) := by
  refine ⟨rfl, ?_, ?_, ?_⟩
  · intro p hp
    simp only [styleEntries, List.mem_filterMap] at hp
    rcases hp with ⟨⟨k, v⟩, hmem, hf⟩
    cases v with
    | none => simp at hf
    | some s =>
      by_cases hs : s = ""
      · simp [hs] at hf
      · simp only [hs, if_neg hs] at hf
        cases p with
        | mk pk pv =>
          simp at hf
          rcases hf with ⟨h1, h2⟩
          subst h1
          subst h2
          exact ⟨hs, hmem⟩
  · rintro o₁ o₂ k rfl
    simp [styleEntries, List.filterMap_append]
  · rintro o₁ o₂ k rfl
    simp [styleEntries, List.filterMap_append]

theorem lookup_sectionVideoAttrs_ne (i : SectionIn) (tgt : String)
    (h1 : tgt ≠ "data-video-bg-url") (h2 : tgt ≠ "data-video-bg-type")
    (h3 : tgt ≠ "data-video-bg-thumbnail")
    (h4 : tgt ≠ "data-video-bg-hide-mobile")
    (h5 : tgt ≠ "data-video-bg-style")
    (h6 : tgt ≠ "data-video-bg-overlay") :
    (sectionVideoAttrs i).lookup tgt = none := by
  cases hv : tru i.videoBg with
  | none => simp [sectionVideoAttrs, hv, List.lookup]
  | some vurl =>
    cases hid : extractYouTubeVideoId vurl with
    | none => simp [sectionVideoAttrs, hv, hid, List.lookup]
    | some vid =>
      simp only [sectionVideoAttrs, hv, hid, List.cons_append,
        List.nil_append, List.lookup, lookup_append, List.append_eq]
      rw [show (tgt == "data-video-bg-url") = false by simp [h1],
        show (tgt == "data-video-bg-type") = false by simp [h2],
        show (tgt == "data-video-bg-thumbnail") = false by simp [h3],
        show (tgt == "data-video-bg-hide-mobile") = false by simp [h4],
        show (tgt == "data-video-bg-style") = false by simp [h5]]
      simp only [lookup_append, lookup_optAttr_ne _ _ _ h6, Option.or_self,
        Option.or_none, Option.none_or]

/-- The three persisted catalog-id attributes of the section are absent
for a given target key unless the corresponding catalog flag holds. -/
theorem lookup_sectionDataAttrs_sg_none
    (ba : Option (List (String × List String))) (i : SectionIn)
    (tgt : String) (h1 : tgt ≠ "data-style-guide-shadow")
    (h2 : tgt ≠ "data-style-guide-border")
    (h3 : tgt ≠ "data-style-guide-corner")
    (h4 : tgt ≠ "data-type") (h5 : tgt ≠ "data-container")
    (h6 : tgt ≠ "data-show") (h7 : tgt ≠ "data-bg-style")
    (h8 : tgt ≠ "data-overlay") (h9 : tgt ≠ "data-bg-image")
    (h10 : tgt ≠ "data-brand-asset") (h11 : tgt ≠ "data-paint-colors")
    (h12 : tgt ≠ "data-video-bg-url") (h13 : tgt ≠ "data-video-bg-type")
    (h14 : tgt ≠ "data-video-bg-thumbnail")
    (h15 : tgt ≠ "data-video-bg-hide-mobile")
    (h16 : tgt ≠ "data-video-bg-style")
    (h17 : tgt ≠ "data-video-bg-overlay") (d : Option StyleguideData) :
    (sectionDataAttrs d ba i).lookup tgt = none := by
  simp only [sectionDataAttrs, lookup_append, List.cons_append,
    List.nil_append, List.lookup, List.append_eq]
  rw [show (tgt == "data-type") = false by simp [h4],
    show (tgt == "data-container") = false by simp [h5]]
  simp only [lookup_append, lookup_optAttr_ne _ _ _ h6,
    lookup_condAttr_ne _ _ _ _ h7, lookup_optAttr_ne _ _ _ h8,
    lookup_optAttr_ne _ _ _ h9, lookup_optAttr_ne _ _ _ h10,
    lookup_optAttr_ne _ _ _ h11, lookup_condAttr_ne _ _ _ _ h1,
    lookup_condAttr_ne _ _ _ _ h2, lookup_condAttr_ne _ _ _ _ h3,
    lookup_sectionVideoAttrs_ne i tgt h12 h13 h14 h15 h16 h17,
    Option.or_self, Option.or_none, Option.none_or]

theorem condAttr_false (key v : String) : condAttr false key v = [] := rfl

/-- With a null styleguide store no catalog flag holds, so the section
emits no `data-style-guide-*` attribute at all. -/
theorem lookup_sectionDataAttrs_none_sg
    (ba : Option (List (String × List String))) (i : SectionIn)
    (tgt : String) (h4 : tgt ≠ "data-type") (h5 : tgt ≠ "data-container")
    (h6 : tgt ≠ "data-show") (h7 : tgt ≠ "data-bg-style")
    (h8 : tgt ≠ "data-overlay") (h9 : tgt ≠ "data-bg-image")
    (h10 : tgt ≠ "data-brand-asset") (h11 : tgt ≠ "data-paint-colors")
    (h12 : tgt ≠ "data-video-bg-url") (h13 : tgt ≠ "data-video-bg-type")
    (h14 : tgt ≠ "data-video-bg-thumbnail")
    (h15 : tgt ≠ "data-video-bg-hide-mobile")
    (h16 : tgt ≠ "data-video-bg-style")
    (h17 : tgt ≠ "data-video-bg-overlay") :
    (sectionDataAttrs none ba i).lookup tgt = none := by
  simp only [sectionDataAttrs, refFlag_none, condAttr_false, lookup_append,
    List.cons_append, List.nil_append, List.lookup, List.append_eq]
  rw [show (tgt == "data-type") = false by simp [h4],
    show (tgt == "data-container") = false by simp [h5]]
  simp only [lookup_append, lookup_optAttr_ne _ _ _ h6,
    lookup_condAttr_ne _ _ _ _ h7, lookup_optAttr_ne _ _ _ h8,
    lookup_optAttr_ne _ _ _ h9, lookup_optAttr_ne _ _ _ h10,
    lookup_optAttr_ne _ _ _ h11,
    lookup_sectionVideoAttrs_ne i tgt h12 h13 h14 h15 h16 h17,
    List.lookup, Option.or_self, Option.or_none, Option.none_or]

/-- C9: malformed configuration degrades without failing: a styleguide
JSON parse error leaves the store null, in which case no catalog
reference resolves, the typescale is absent, and no `data-style-guide-*`
attribute is emitted (preset-only mode); a color id missing from the
palette resolves to the fixed fallback `#000000`. All modelled paths are
total functions, so no exception can propagate. -/
theorem c9_malformed_config_degrades :
    sgInit none none (some ParseResult.err) = none
    ∧ (∀ v ty, isStyleguideRef none v ty = false)
    ∧ (∀ s ty, resolveSize none s ty = none)
    ∧ (∀ size, resolvedTextSize none "headline" size
        = (match resolve (some size) FONT_SIZES with
           | some w => w
           | none => size))
    ∧ (∀ ba i, (sectionDataAttrs none ba i).lookup "data-style-guide-shadow" = none
        ∧ (sectionDataAttrs none ba i).lookup "data-style-guide-border" = none
        ∧ (sectionDataAttrs none ba i).lookup "data-style-guide-corner" = none)
    ∧ (∀ cid, getColorHex none cid = "#000000")
    ∧ (∀ sg cid, (∀ c ∈ sg.colors.getD [], c.id ≠ cid) →
        getColorHex (some sg) cid = "#000000") := by
  refine ⟨rfl, ?_, ?_, ?_, ?_, ?_, ?_⟩
  · intro v ty
    by_cases hv : v = "" <;> simp [isStyleguideRef, hv]
  · intro s ty
    simp [resolveSize, getTypescale]
  · intro size
    simp [resolvedTextSize, resolveSize, getTypescale]
  · intro ba i
    refine ⟨?_, ?_, ?_⟩ <;>
      exact lookup_sectionDataAttrs_none_sg ba i _
        (by decide) (by decide) (by decide) (by decide) (by decide)
        (by decide) (by decide) (by decide) (by decide) (by decide)
        (by decide) (by decide) (by decide) (by decide)
  · intro cid
    rfl
  · intro sg cid hmiss
    cases hc : sg.colors with
    | none => simp [getColorHex, hc]
    | some cs =>
      have hfind : cs.find? (fun c => c.id == cid) = none := by
        apply List.find?_eq_none.mpr
        intro c hcm
        have := hmiss c (by rw [hc]; simpa using hcm)
        simp [this]
      simp [getColorHex, hc, hfind]

theorem jsRound_mul_pow (b r : ℚ) (k : ℕ) :
    jsRound (b * r ^ k) = round (b * r ^ (k : ℤ)) := by
  rw [jsRound_eq_round, zpow_natCast]

theorem jsRound_mul (b r : ℚ) :
    jsRound (b * r) = round (b * r ^ (1 : ℤ)) := by
  rw [jsRound_eq_round, zpow_one]

theorem jsRound_div_pow (b r : ℚ) (k : ℕ) :
    jsRound (b / r ^ k) = round (b * r ^ (-(k : ℤ))) := by
  rw [jsRound_eq_round]
  congr 1
  rw [zpow_neg, zpow_natCast, div_eq_mul_inv]

theorem jsRound_div (b r : ℚ) :
    jsRound (b / r) = round (b * r ^ (-1 : ℤ)) := by
  rw [jsRound_eq_round]
  congr 1
  rw [zpow_neg, zpow_one, div_eq_mul_inv]

theorem pxStr_ne_empty (n : ℤ) : pxStr n ≠ "" := by
  intro h
  have := congrArg String.length h
  simp [pxStr, String.length_append] at this
  exact absurd this.2 (by decide)

/-- C6: every text font size resolves through exactly three tiers: the
active styleguide's typescale table for the element type, then the
static `FONT_SIZES` preset table, then the raw attribute value
verbatim. -/
theorem c6_font_size_three_tiers (d : Option StyleguideData)
    (ty size : String) :
    (∀ ts v, getTypescale d = some ts →
      (scaleFor ts ty).lookup size = some v → v ≠ "" →
      resolvedTextSize d ty size = v)
    ∧ (resolveSize d size ty = none → ∀ w, FONT_SIZES.lookup size = some w →
      size ≠ "" → resolvedTextSize d ty size = w)
    ∧ (resolveSize d size ty = none → FONT_SIZES.lookup size = none →
      resolvedTextSize d ty size = size) := by
  refine ⟨?_, ?_, ?_⟩
  · intro ts v hts hlk hv
    simp [resolvedTextSize, resolveSize, hts, hlk, hv]
  · intro hnone w hw hsz
    have hwne : w ≠ "" := by
      have hmem := lookup_mem FONT_SIZES size w hw
      have : ∀ p ∈ FONT_SIZES, p.2 ≠ "" := by decide
      exact this (size, w) hmem
    simp [resolvedTextSize, hnone, resolve, hsz, hw, hwne]
  · intro hnone hlk
    by_cases hsz : size = ""
    · subst hsz
      simp [resolvedTextSize, hnone, resolve]
    · simp [resolvedTextSize, hnone, resolve, hsz, hlk]

/-- Witness for C6: the styleguide typescale wins for "xl" on a
headline, the static table resolves "xl" without a styleguide, and an
unknown keyword passes through raw. -/
theorem c6_font_size_three_tiers_witness :
    resolvedTextSize (some sgDemo) "headline" "xl"
      = pxStr (jsRound ((16 : ℚ) * (5 / 4 : ℚ) ^ (4 : ℕ)))
    ∧ resolvedTextSize none "headline" "xl" = "24px"
    ∧ resolvedTextSize none "headline" "37px" = "37px" :=
  ⟨(c6_font_size_three_tiers (some sgDemo) "headline" "xl").1 _ _ rfl rfl
      (pxStr_ne_empty _),
   (c6_font_size_three_tiers none "headline" "xl").2.1 rfl "24px"
      (by decide) (by decide),
   (c6_font_size_three_tiers none "headline" "37px").2.2 rfl (by decide)⟩

/-- The closed form of `getTypescale` in terms of the rounded geometric
steps (the offset-0 entries are the raw base). -/
theorem getTypescale_struct (sg : StyleguideData) (ty : Typography)
    (b r : ℚ) (hty : sg.typography = some ty) (hb : ty.baseSize = some b)
    (hr : ty.scaleRatio = some r) :
    getTypescale (some sg) = some
        { headline :=
            [("5xl", pxStr (round (b * r ^ (8 : ℤ)))),
             ("4xl", pxStr (round (b * r ^ (7 : ℤ)))),
             ("3xl", pxStr (round (b * r ^ (6 : ℤ)))),
             ("2xl", pxStr (round (b * r ^ (5 : ℤ)))),
             ("xl", pxStr (round (b * r ^ (4 : ℤ)))),
             ("l", pxStr (round (b * r ^ (3 : ℤ)))),
             ("lg", pxStr (round (b * r ^ (3 : ℤ)))),
             ("m", pxStr (round (b * r ^ (2 : ℤ)))),
             ("md", pxStr (round (b * r ^ (2 : ℤ)))),
             ("s", pxStr (round (b * r ^ (1 : ℤ)))),
             ("sm", pxStr (round (b * r ^ (1 : ℤ)))),
             ("xs", decStr b ++ "px")]
          subheadline :=
            [("5xl", pxStr (round (b * r ^ (7 : ℤ)))),
             ("4xl", pxStr (round (b * r ^ (6 : ℤ)))),
             ("3xl", pxStr (round (b * r ^ (5 : ℤ)))),
             ("2xl", pxStr (round (b * r ^ (4 : ℤ)))),
             ("xl", pxStr (round (b * r ^ (3 : ℤ)))),
             ("l", pxStr (round (b * r ^ (2 : ℤ)))),
             ("lg", pxStr (round (b * r ^ (2 : ℤ)))),
             ("m", pxStr (round (b * r ^ (1 : ℤ)))),
             ("md", pxStr (round (b * r ^ (1 : ℤ)))),
             ("s", decStr b ++ "px"),
             ("sm", decStr b ++ "px"),
             ("xs", pxStr (round (b * r ^ (-1 : ℤ))))]
          paragraph :=
            [("5xl", pxStr (round (b * r ^ (6 : ℤ)))),
             ("4xl", pxStr (round (b * r ^ (5 : ℤ)))),
             ("3xl", pxStr (round (b * r ^ (4 : ℤ)))),
             ("2xl", pxStr (round (b * r ^ (3 : ℤ)))),
             ("xl", pxStr (round (b * r ^ (2 : ℤ)))),
             ("l", pxStr (round (b * r ^ (1 : ℤ)))),
             ("lg", pxStr (round (b * r ^ (1 : ℤ)))),
             ("m", decStr b ++ "px"),
             ("md", decStr b ++ "px"),
             ("s", pxStr (round (b * r ^ (-1 : ℤ)))),
             ("sm", pxStr (round (b * r ^ (-1 : ℤ)))),
             ("xs", pxStr (round (b * r ^ (-(2 : ℕ) : ℤ))))] } := by
  simp only [getTypescale, hty, hb, hr, Option.getD_some]
  simp only [jsRound_mul_pow, jsRound_div_pow]
  simp only [jsRound_mul, jsRound_div]
  rfl

/-- C7 (amended): the scale calculator computes
`step(n) = round(baseSize * scaleRatio ^ n)` for the offsets
−3…−1 and 1…8, while the offset-0 entry is the raw `baseSize`
(unrounded, equal to `round(baseSize)` whenever the base is an
integer); headline presets map to the largest steps, subheadline one
step down, paragraph two steps down; and for baseSize 16 and ratio 1.25
the cited values hold: headline xl is "39px", subheadline m is "20px",
paragraph m is "16px". -/
theorem c7_typescale_geometric_steps :
    (∀ (sg : StyleguideData) (ty : Typography) (b r : ℚ),
      sg.typography = some ty → ty.baseSize = some b →
      ty.scaleRatio = some r →
      getTypescale (some sg) = some
        { headline :=
            [("5xl", pxStr (round (b * r ^ (8 : ℤ)))),
             ("4xl", pxStr (round (b * r ^ (7 : ℤ)))),
             ("3xl", pxStr (round (b * r ^ (6 : ℤ)))),
             ("2xl", pxStr (round (b * r ^ (5 : ℤ)))),
             ("xl", pxStr (round (b * r ^ (4 : ℤ)))),
             ("l", pxStr (round (b * r ^ (3 : ℤ)))),
             ("lg", pxStr (round (b * r ^ (3 : ℤ)))),
             ("m", pxStr (round (b * r ^ (2 : ℤ)))),
             ("md", pxStr (round (b * r ^ (2 : ℤ)))),
             ("s", pxStr (round (b * r ^ (1 : ℤ)))),
             ("sm", pxStr (round (b * r ^ (1 : ℤ)))),
             ("xs", decStr b ++ "px")]
          subheadline :=
            [("5xl", pxStr (round (b * r ^ (7 : ℤ)))),
             ("4xl", pxStr (round (b * r ^ (6 : ℤ)))),
             ("3xl", pxStr (round (b * r ^ (5 : ℤ)))),
             ("2xl", pxStr (round (b * r ^ (4 : ℤ)))),
             ("xl", pxStr (round (b * r ^ (3 : ℤ)))),
             ("l", pxStr (round (b * r ^ (2 : ℤ)))),
             ("lg", pxStr (round (b * r ^ (2 : ℤ)))),
             ("m", pxStr (round (b * r ^ (1 : ℤ)))),
             ("md", pxStr (round (b * r ^ (1 : ℤ)))),
             ("s", decStr b ++ "px"),
             ("sm", decStr b ++ "px"),
             ("xs", pxStr (round (b * r ^ (-1 : ℤ))))]
          paragraph :=
            [("5xl", pxStr (round (b * r ^ (6 : ℤ)))),
             ("4xl", pxStr (round (b * r ^ (5 : ℤ)))),
             ("3xl", pxStr (round (b * r ^ (4 : ℤ)))),
             ("2xl", pxStr (round (b * r ^ (3 : ℤ)))),
             ("xl", pxStr (round (b * r ^ (2 : ℤ)))),
             ("l", pxStr (round (b * r ^ (1 : ℤ)))),
             ("lg", pxStr (round (b * r ^ (1 : ℤ)))),
             ("m", decStr b ++ "px"),
             ("md", decStr b ++ "px"),
             ("s", pxStr (round (b * r ^ (-1 : ℤ)))),
             ("sm", pxStr (round (b * r ^ (-1 : ℤ)))),
             ("xs", pxStr (round (b * r ^ (-(2 : ℕ) : ℤ))))] })
    ∧ (getTypescale (some sgDemo)).map (fun ts => ts.headline.lookup "xl")
        = some (some "39px")
    ∧ (getTypescale (some sgDemo)).map (fun ts => ts.subheadline.lookup "m")
        = some (some "20px")
    ∧ (getTypescale (some sgDemo)).map (fun ts => ts.paragraph.lookup "m")
        = some (some "16px") := by
  refine ⟨fun sg ty b r hty hb hr => getTypescale_struct sg ty b r hty hb hr,
    ?_, ?_, ?_⟩
  · rw [getTypescale_struct sgDemo _ 16 (5 / 4) rfl rfl rfl]
    have h : round ((16 : ℚ) * (5 / 4 : ℚ) ^ (4 : ℤ)) = 39 := by
      rw [round_eq]
      norm_num [Int.floor_eq_iff]
    simp [List.lookup, h]
    decide
  · rw [getTypescale_struct sgDemo _ 16 (5 / 4) rfl rfl rfl]
    have h : round ((16 : ℚ) * (5 / 4 : ℚ)) = 20 := by
      rw [round_eq]
      norm_num [Int.floor_eq_iff]
    simp [List.lookup, h]
    decide
  · rw [getTypescale_struct sgDemo _ 16 (5 / 4) rfl rfl rfl]
    have h1 : ¬((16 : ℚ) < 0) := by norm_num
    have hd : decStr (16 : ℚ) = "16" := by
      simp only [decStr, h1, if_false, Rat.num_ofNat, Rat.den_ofNat]
      decide
    simp [List.lookup, hd]

/-- Witness for C7 applying the step formula at the default typography. -/
theorem c7_typescale_geometric_steps_witness :
    (getTypescale (some sgDemo)).map (fun ts => ts.subheadline.lookup "xs")
      = some (some (pxStr (round ((16 : ℚ) * (5 / 4 : ℚ) ^ (-1 : ℤ))))) := by
  rw [c7_typescale_geometric_steps.1 sgDemo _ 16 (5 / 4) rfl rfl rfl]
  simp [List.lookup]

/-- Counterexample to C7 as stated: with a fractional base size (16.5)
the offset-0 entry is emitted unrounded ("16.5px"), not
`round(baseSize * scaleRatio ^ 0) = 17` as the claim's formula
requires. -/
theorem c7_counterexample :
    (getTypescale (some sgHalf)).map (fun ts => ts.headline.lookup "xs")
      = some (some "16.5px")
    ∧ "16.5px" ≠ pxStr (round ((33 / 2 : ℚ) * (5 / 4 : ℚ) ^ (0 : ℤ))) := by
  constructor
  · have hq : ((33 : ℤ) : ℚ) / ((2 : ℕ) : ℚ) = (33 / 2 : ℚ) := by norm_num
    have h := rat_num_den_of_coprime 33 2 (by decide) (by norm_num)
    have hnum : ((33 / 2 : ℚ)).num = 33 := by rw [← hq]; exact h.1
    have hden : ((33 / 2 : ℚ)).den = 2 := by rw [← hq]; exact h.2
    have hneg : ¬((33 / 2 : ℚ) < 0) := by norm_num
    simp only [getTypescale, sgHalf, Option.getD_some, Option.map_some,
      List.lookup]
    simp only [decStr, hneg, if_false, hnum, hden]
    decide
  · have h : round ((33 / 2 : ℚ) * (5 / 4 : ℚ) ^ (0 : ℤ)) = 17 := by
      rw [round_eq]
      norm_num [Int.floor_eq_iff]
    rw [h]
    decide

/-- Witness for C9: a palette without the requested id falls back, and
the section of a styleguide-free render carries no catalog attribute. -/
theorem c9_malformed_config_degrades_witness :
    getColorHex (some sgDemo) "missing" = "#000000"
    ∧ (sectionDataAttrs none none emptySectionIn).lookup
        "data-style-guide-shadow" = none :=
  ⟨c9_malformed_config_degrades.2.2.2.2.2.2 sgDemo "missing" (by decide),
   (c9_malformed_config_degrades.2.2.2.2.1 none emptySectionIn).1⟩

/-- C2 (amended): the persisted data attributes of the embedded
renderers store the raw pre-resolution input values — the headline's
size/weight/color/leading keep the written preset key or raw string, the
image's `data-src` stores the original `src` even when a brand asset
replaces the rendered URL, the section's `data-bg-image` stores the
original attribute, and the flex container's direction/justify/items and
width store their raw inputs — with the exception of the normalizing
attributes (flex `data-gap`, which stores the px-to-em converted value,
plus the booleanized flags and derived video thumbnail). -/
theorem c2_data_attrs_keep_inputs (d : Option StyleguideData)
    (ba : Option (List (String × List String))) :
    (∀ i : HeadlineIn,
      (∀ s, i.size = some s →
        (headlineDataAttrs i).lookup "data-size" = some s)
      ∧ (∀ w, i.weight = some w →
        (headlineDataAttrs i).lookup "data-weight" = some w)
      ∧ (∀ c, i.color = some c → c ≠ "" →
        (headlineDataAttrs i).lookup "data-color" = some c)
      ∧ (∀ l, i.leading = some l →
        (headlineDataAttrs i).lookup "data-leading" = some l))
    ∧ (∀ i : ImageIn,
      (∀ s, i.src = some s →
        (imageDataAttrs d i).lookup "data-src" = some s)
      ∧ (∀ r, i.rounded = some r → r ≠ "" →
        (imageDataAttrs d i).lookup "data-rounded" = some r)
      ∧ (∀ s, i.shadow = some s → s ≠ "" →
        (imageDataAttrs d i).lookup "data-shadow" = some s))
    ∧ (∀ i : SectionIn, ∀ u, i.bgImage = some u → u ≠ "" →
        (sectionDataAttrs d ba i).lookup "data-bg-image" = some u)
    ∧ (∀ i : FlexIn,
      (flexDataAttrs d i).lookup "data-direction"
        = some (attrD i.direction "row")
      ∧ (∀ w, i.width = some w → w ≠ "" →
        (flexDataAttrs d i).lookup "data-width" = some w)
      ∧ (flexDataAttrs d i).lookup "data-gap"
        = some (flexGapValue i.gap)) := by
  refine ⟨?_, ?_, ?_, ?_⟩
  · intro i
    refine ⟨?_, ?_, ?_, ?_⟩
    · intro s hs
      simp only [headlineDataAttrs, List.cons_append, List.nil_append]
      rw [lookup_cons_ne _ _ _ _
          (show ("data-size" : String) ≠ "data-type" by decide),
        lookup_cons_self]
      simp [attrD, hs]
    · intro w hw
      simp only [headlineDataAttrs, List.cons_append, List.nil_append]
      rw [lookup_cons_ne _ _ _ _
          (show ("data-weight" : String) ≠ "data-type" by decide),
        lookup_cons_ne _ _ _ _
          (show ("data-weight" : String) ≠ "data-size" by decide),
        lookup_cons_self]
      simp [attrD, hw]
    · intro c hc hcne
      simp only [headlineDataAttrs, List.cons_append, List.nil_append]
      rw [lookup_cons_ne _ _ _ _
          (show ("data-color" : String) ≠ "data-type" by decide),
        lookup_cons_ne _ _ _ _
          (show ("data-color" : String) ≠ "data-size" by decide),
        lookup_cons_ne _ _ _ _
          (show ("data-color" : String) ≠ "data-weight" by decide)]
      simp only [lookup_append]
      simp [colorExplicitAttrs, tru, hc, hcne, List.lookup]
    · intro l hl
      simp only [headlineDataAttrs, List.cons_append, List.nil_append]
      rw [lookup_cons_ne _ _ _ _
          (show ("data-leading" : String) ≠ "data-type" by decide),
        lookup_cons_ne _ _ _ _
          (show ("data-leading" : String) ≠ "data-size" by decide),
        lookup_cons_ne _ _ _ _
          (show ("data-leading" : String) ≠ "data-weight" by decide)]
      simp only [lookup_append]
      rw [lookup_colorExplicitAttrs_ne _ _ (by decide) (by decide),
        lookup_cons_ne _ _ _ _
          (show ("data-leading" : String) ≠ "data-align" by decide),
        lookup_cons_self]
      simp [attrD, hl]
  · intro i
    refine ⟨?_, ?_, ?_⟩
    · intro s hs
      simp only [imageDataAttrs, List.cons_append, List.nil_append]
      rw [lookup_cons_ne _ _ _ _
          (show ("data-src" : String) ≠ "data-type" by decide),
        lookup_cons_self]
      simp [attrD, hs]
    · intro r hr hrne
      simp only [imageDataAttrs, List.cons_append, List.nil_append]
      rw [lookup_cons_ne _ _ _ _
          (show ("data-rounded" : String) ≠ "data-type" by decide),
        lookup_cons_ne _ _ _ _
          (show ("data-rounded" : String) ≠ "data-src" by decide)]
      simp only [lookup_append]
      rw [lookup_condAttr_ne _ _ _ _
          (show ("data-rounded" : String) ≠ "data-alt" by decide),
        lookup_condAttr_ne _ _ _ _
          (show ("data-rounded" : String) ≠ "data-width" by decide),
        lookup_optAttr_ne _ _ _
          (show ("data-rounded" : String) ≠ "data-height" by decide),
        lookup_condAttr_ne _ _ _ _
          (show ("data-rounded" : String) ≠ "data-align" by decide),
        lookup_optAttr_self]
      simp [tru, hr, hrne]
    · intro s hs hsne
      simp only [imageDataAttrs, List.cons_append, List.nil_append]
      rw [lookup_cons_ne _ _ _ _
          (show ("data-shadow" : String) ≠ "data-type" by decide),
        lookup_cons_ne _ _ _ _
          (show ("data-shadow" : String) ≠ "data-src" by decide)]
      simp only [lookup_append]
      rw [lookup_condAttr_ne _ _ _ _
          (show ("data-shadow" : String) ≠ "data-alt" by decide),
        lookup_condAttr_ne _ _ _ _
          (show ("data-shadow" : String) ≠ "data-width" by decide),
        lookup_optAttr_ne _ _ _
          (show ("data-shadow" : String) ≠ "data-height" by decide),
        lookup_condAttr_ne _ _ _ _
          (show ("data-shadow" : String) ≠ "data-align" by decide),
        lookup_optAttr_ne _ _ _
          (show ("data-shadow" : String) ≠ "data-rounded" by decide),
        lookup_optAttr_ne _ _ _
          (show ("data-shadow" : String) ≠ "data-corner" by decide),
        lookup_optAttr_self]
      simp [tru, hs, hsne]
  · intro i u hu hune
    simp only [sectionDataAttrs, List.cons_append, List.nil_append]
    rw [lookup_cons_ne _ _ _ _
        (show ("data-bg-image" : String) ≠ "data-type" by decide),
      lookup_cons_ne _ _ _ _
        (show ("data-bg-image" : String) ≠ "data-container" by decide)]
    simp only [lookup_append]
    rw [lookup_optAttr_ne _ _ _
        (show ("data-bg-image" : String) ≠ "data-show" by decide),
      lookup_condAttr_ne _ _ _ _
        (show ("data-bg-image" : String) ≠ "data-bg-style" by decide),
      lookup_optAttr_ne _ _ _
        (show ("data-bg-image" : String) ≠ "data-overlay" by decide),
      lookup_optAttr_self]
    simp [tru, hu, hune]
  · intro i
    refine ⟨?_, ?_, ?_⟩
    · simp only [flexDataAttrs, List.cons_append, List.nil_append]
      rw [lookup_cons_ne _ _ _ _
          (show ("data-direction" : String) ≠ "data-type" by decide)]
      simp only [lookup_append]
      rw [lookup_optAttr_ne _ _ _
          (show ("data-direction" : String) ≠ "data-show" by decide),
        lookup_cons_self]
      simp
    · intro w hw hwne
      simp only [flexDataAttrs, List.cons_append, List.nil_append]
      rw [lookup_cons_ne _ _ _ _
          (show ("data-width" : String) ≠ "data-type" by decide)]
      simp only [lookup_append]
      rw [lookup_optAttr_ne _ _ _
          (show ("data-width" : String) ≠ "data-show" by decide),
        lookup_cons_ne _ _ _ _
          (show ("data-width" : String) ≠ "data-direction" by decide),
        lookup_cons_ne _ _ _ _
          (show ("data-width" : String) ≠ "data-justify" by decide),
        lookup_cons_ne _ _ _ _
          (show ("data-width" : String) ≠ "data-items" by decide),
        lookup_condAttr_ne _ _ _ _
          (show ("data-width" : String) ≠ "data-wrap" by decide),
        lookup_cons_ne _ _ _ _
          (show ("data-width" : String) ≠ "data-gap" by decide),
        lookup_optAttr_self]
      simp [tru, hw, hwne]
    · simp only [flexDataAttrs, List.cons_append, List.nil_append]
      rw [lookup_cons_ne _ _ _ _
          (show ("data-gap" : String) ≠ "data-type" by decide)]
      simp only [lookup_append]
      rw [lookup_optAttr_ne _ _ _
          (show ("data-gap" : String) ≠ "data-show" by decide),
        lookup_cons_ne _ _ _ _
          (show ("data-gap" : String) ≠ "data-direction" by decide),
        lookup_cons_ne _ _ _ _
          (show ("data-gap" : String) ≠ "data-justify" by decide),
        lookup_cons_ne _ _ _ _
          (show ("data-gap" : String) ≠ "data-items" by decide),
        lookup_condAttr_ne _ _ _ _
          (show ("data-gap" : String) ≠ "data-wrap" by decide),
        lookup_cons_self]
      simp

/-- Witness for C2 at concrete inputs: a headline written with a preset
size key stores the key itself, and an image with a brand asset stores
the original src. -/
theorem c2_data_attrs_keep_inputs_witness :
    (headlineDataAttrs { emptyHeadlineIn with size := some "xl" }).lookup
      "data-size" = some "xl"
    ∧ (imageDataAttrs none
        { emptyImageIn with
          src := some "a.png",
          brandAsset := some "logo" }).lookup "data-src" = some "a.png" :=
  ⟨((c2_data_attrs_keep_inputs none none).1
      { emptyHeadlineIn with size := some "xl" }).1 "xl" rfl,
   ((c2_data_attrs_keep_inputs none none).2.1
      { emptyImageIn with
        src := some "a.png",
        brandAsset := some "logo" }).1 "a.png" rfl⟩

/-- Counterexample to C2 as stated: the flex container's `data-gap`
stores the px-to-em normalized value ("2em" for the input "32px"), and
`data-wrap` stores the booleanized "true" for the written empty string,
so these data attributes are not the raw input values. -/
theorem c2_counterexample :
    ({ emptyFlexIn with gap := some "32px", wrap := some "" } : FlexIn).gap
      = some "32px"
    ∧ (flexDataAttrs none
        { emptyFlexIn with gap := some "32px", wrap := some "" }).lookup
        "data-gap" = some "2em"
    ∧ ("2em" : String) ≠ "32px"
    ∧ (flexDataAttrs none
        { emptyFlexIn with gap := some "32px", wrap := some "" }).lookup
        "data-wrap" = some "true"
    ∧ ("true" : String) ≠ "" := by
  have hg : flexGapValue (some "32px")
      = decStr (((1 : ℚ) * (((32 : ℕ) : ℚ)
          + ((0 : ℕ) : ℚ) / (10 : ℚ) ^ (0 : ℕ))) / 16) ++ "em" := rfl
  have h2 : ((1 : ℚ) * (((32 : ℕ) : ℚ)
      + ((0 : ℕ) : ℚ) / (10 : ℚ) ^ (0 : ℕ))) / 16 = ((2 : ℕ) : ℚ) := by
    norm_num
  have h3 : flexGapValue (some "32px") = "2em" := by
    rw [hg, h2, decStr_natCast]
    decide
  refine ⟨rfl, ?_, by decide, ?_, by decide⟩
  · simp only [flexDataAttrs]
    rw [h3]
    decide
  · simp only [flexDataAttrs]
    rw [h3]
    decide

/-- Witness for C10 on a concrete style object with a null and an empty
value. -/
theorem c10_buildStyle_omits_empty_witness :
    styleEntries [("margin", some "0"), ("color", none), ("width", some "")]
      = styleEntries ([("margin", some "0")] ++ [("width", some "")])
    ∧ buildStyle [("margin", some "0"), ("color", none), ("width", some "")]
      = "margin: 0" :=
  ⟨(c10_buildStyle_omits_empty
      [("margin", some "0"), ("color", none), ("width", some "")]).2.2.1
      [("margin", some "0")] [("width", some "")] "color" rfl,
   by decide⟩

theorem option_some_or {α : Type} (a : α) (o : Option α) :
    (some a).or o = some a := rfl

theorem option_none_or {α : Type} (o : Option α) :
    (Option.or none o) = o := rfl

theorem lookup_optStyle_ne (key : String) (x : Option String) (tgt : String)
    (h : tgt ≠ key) : (optStyle key x).lookup tgt = none := by
  cases hx : tru x with
  | none => simp [optStyle, hx, List.lookup]
  | some s =>
    simp only [optStyle, hx, List.lookup]
    rw [show (tgt == key) = false by simp [h]]

theorem lookup_ite_single_ne {β : Type} (c : Bool) (k : String) (v : β)
    (tgt : String) (h : tgt ≠ k) :
    (if c then [(k, v)] else []).lookup tgt = none := by
  cases c
  · rfl
  · rw [if_pos rfl, lookup_cons_ne k v [] tgt h]
    rfl

theorem lookup_ite_nil_false {β : Type} (c : Bool) (l : List (String × β))
    (tgt : String) (hc : c = false) :
    (if c then l else []).lookup tgt = none := by
  rw [hc, if_neg (by decide : ¬ ((false : Bool) = true))]
  rfl

theorem lookup_imageBorderFrag_ne (d : Option StyleguideData) (i : ImageIn)
    (tgt : String) (h1 : tgt ≠ "border-width") (h2 : tgt ≠ "border-style") :
    (imageBorderFrag d i).lookup tgt = none := by
  cases hb : tru i.border with
  | none => simp [imageBorderFrag, hb]
  | some b =>
    simp only [imageBorderFrag, hb]
    by_cases hsg : isStyleguideRef d b "border" = true
    · rw [if_pos hsg]
      rfl
    · rw [if_neg hsg, lookup_cons_ne _ _ _ _ h1, lookup_cons_ne _ _ _ _ h2]
      rfl

theorem imageBorderFrag_sg (d : Option StyleguideData) (i : ImageIn)
    (b : String) (hb : tru i.border = some b)
    (hsg : isStyleguideRef d b "border" = true) :
    imageBorderFrag d i = [] := by
  simp [imageBorderFrag, hb, hsg]

theorem imageNeedsInner_false_of_shadow_sg (d : Option StyleguideData)
    (i : ImageIn) (h : refFlag d i.shadow "shadow" = true) :
    imageNeedsInner d i = false := by
  simp [imageNeedsInner, h]

theorem imageNeedsInner_false_of_corner_sg (d : Option StyleguideData)
    (i : ImageIn) (h : refFlag d i.corner "corner" = true) :
    imageNeedsInner d i = false := by
  simp [imageNeedsInner, h]

theorem imageInnerStyles_none (d : Option StyleguideData) (i : ImageIn)
    (h : imageNeedsInner d i = false) : imageInnerStyles d i = none := by
  simp [imageInnerStyles, h]

theorem lookup_bgImageStep_ne (x : Option String)
    (o : List (String × Option String)) (tgt : String)
    (h : tgt ≠ "background-image") :
    (bgImageStep x o).lookup tgt = o.lookup tgt := by
  cases hx : tru x with
  | none => simp only [bgImageStep, hx]
  | some u =>
    simp only [bgImageStep, hx]
    exact lookup_objSet_ne o _ _ tgt h

theorem lookup_sectionStyles_none (d : Option StyleguideData)
    (ba : Option (List (String × List String))) (i : SectionIn)
    (tgt : String)
    (hsh : ∀ o, (shadowStep d i.shadow o).lookup tgt = o.lookup tgt)
    (hrad : ∀ o, (sectionRadiusStep d (tru i.rounded <|> tru i.popupRounded)
      i.corner o).lookup tgt = o.lookup tgt)
    (hbor : ∀ o, (borderStep d i.border i.borderStyle o).lookup tgt
      = o.lookup tgt)
    (h1 : tgt ≠ "border-color") (h2 : tgt ≠ "margin-top")
    (h3 : tgt ≠ "background-image") (h4 : tgt ≠ "background")
    (h5 : tgt ≠ "background-color") (h6 : tgt ≠ "width")
    (h7 : tgt ≠ "max-width") (h8 : tgt ≠ "margin-left")
    (h9 : tgt ≠ "margin-right") (h10 : tgt ≠ "position")
    (h11 : tgt ≠ "padding-top") (h12 : tgt ≠ "padding-bottom")
    (h13 : tgt ≠ "padding-left") (h14 : tgt ≠ "padding-right")
    (h15 : tgt ≠ "box-sizing") :
    (sectionStyles d ba i).lookup tgt = none := by
  simp only [sectionStyles]
  rw [lookup_objSetIf_ne _ _ _ _ h1, hbor, hrad, hsh,
    lookup_objSetIf_ne _ _ _ _ h2,
    lookup_bgImageStep_ne _ _ _ h3,
    lookup_bgStep_ne _ _ _ _ _ h4 h5,
    lookup_cons_ne _ _ _ _ h6, lookup_cons_ne _ _ _ _ h7,
    lookup_cons_ne _ _ _ _ h8, lookup_cons_ne _ _ _ _ h9,
    lookup_cons_ne _ _ _ _ h10, lookup_cons_ne _ _ _ _ h11,
    lookup_cons_ne _ _ _ _ h12, lookup_cons_ne _ _ _ _ h13,
    lookup_cons_ne _ _ _ _ h14, lookup_cons_ne _ _ _ _ h15]
  rfl

theorem lookup_flexStyles_none (d : Option StyleguideData) (i : FlexIn)
    (tgt : String)
    (hsh : ∀ o, (shadowStep d i.shadow o).lookup tgt = o.lookup tgt)
    (hrad : ∀ o, (flexRadiusStep d i.rounded i.corner o).lookup tgt
      = o.lookup tgt)
    (hbor : ∀ o, (borderStep d i.border i.borderStyle o).lookup tgt
      = o.lookup tgt)
    (h1 : tgt ≠ "height") (h2 : tgt ≠ "width") (h3 : tgt ≠ "border-color")
    (h4 : tgt ≠ "margin-top") (h5 : tgt ≠ "padding-bottom")
    (h6 : tgt ≠ "padding-top") (h7 : tgt ≠ "padding-left")
    (h8 : tgt ≠ "padding-right") (h9 : tgt ≠ "background")
    (h10 : tgt ≠ "background-color") (h11 : tgt ≠ "gap")
    (h12 : tgt ≠ "flex-wrap") (h13 : tgt ≠ "display")
    (h14 : tgt ≠ "flex-direction") (h15 : tgt ≠ "justify-content")
    (h16 : tgt ≠ "align-items") (h17 : tgt ≠ "box-sizing")
    (h18 : tgt ≠ "margin-left") (h19 : tgt ≠ "margin-right") :
    (flexStyles d i).lookup tgt = none := by
  simp only [flexStyles]
  rw [lookup_objSetIf_ne _ _ _ _ h1, lookup_objSetIf_ne _ _ _ _ h2,
    lookup_objSetIf_ne _ _ _ _ h3, hbor, hrad, hsh,
    lookup_objSetIf_ne _ _ _ _ h4, lookup_objSetIf_ne _ _ _ _ h5,
    lookup_objSetIf_ne _ _ _ _ h6,
    lookup_pyStep_ne _ _ _ h6 h5, lookup_pxStep_ne _ _ _ h7 h8,
    lookup_pStep_ne _ _ _ h6 h5 h7 h8,
    lookup_bgStep_ne _ _ _ _ _ h9 h10,
    lookup_objSet_ne _ _ _ _ h11]
  by_cases hw : i.wrap = some "true" ∨ i.wrap = some ""
  · rw [if_pos hw, lookup_objSet_ne _ _ _ _ h12,
      lookup_cons_ne _ _ _ _ h13, lookup_cons_ne _ _ _ _ h14,
      lookup_cons_ne _ _ _ _ h15, lookup_cons_ne _ _ _ _ h16,
      lookup_cons_ne _ _ _ _ h17, lookup_cons_ne _ _ _ _ h18,
      lookup_cons_ne _ _ _ _ h19]
    rfl
  · rw [if_neg hw,
      lookup_cons_ne _ _ _ _ h13, lookup_cons_ne _ _ _ _ h14,
      lookup_cons_ne _ _ _ _ h15, lookup_cons_ne _ _ _ _ h16,
      lookup_cons_ne _ _ _ _ h17, lookup_cons_ne _ _ _ _ h18,
      lookup_cons_ne _ _ _ _ h19]
    rfl

theorem lookup_imageImgStyles_shadow_sg (d : Option StyleguideData)
    (i : ImageIn) (hrf : refFlag d i.shadow "shadow" = true) :
    (imageImgStyles d i).lookup "box-shadow" = none := by
  simp only [imageImgStyles, List.cons_append, List.nil_append]
  rw [lookup_cons_ne _ _ _ _
      (show ("box-shadow" : String) ≠ "display" by decide),
    lookup_cons_ne _ _ _ _
      (show ("box-shadow" : String) ≠ "vertical-align" by decide),
    lookup_cons_ne _ _ _ _
      (show ("box-shadow" : String) ≠ "max-width" by decide),
    lookup_cons_ne _ _ _ _
      (show ("box-shadow" : String) ≠ "width" by decide)]
  simp only [lookup_append]
  rw [lookup_optStyle_ne _ _ _
      (show ("box-shadow" : String) ≠ "height" by decide),
    lookup_ite_single_ne _ _ _ _
      (show ("box-shadow" : String) ≠ "border-radius" by decide),
    lookup_ite_nil_false _ _ _ (by simp [hrf]),
    lookup_imageBorderFrag_ne _ _ _ (show ("box-shadow" : String)
      ≠ "border-width" by decide) (show ("box-shadow" : String)
      ≠ "border-style" by decide),
    lookup_optStyle_ne _ _ _
      (show ("box-shadow" : String) ≠ "border-color" by decide),
    lookup_optStyle_ne _ _ _
      (show ("box-shadow" : String) ≠ "object-fit" by decide)]
  rfl

theorem lookup_imageImgStyles_border_sg (d : Option StyleguideData)
    (i : ImageIn) (b : String) (tgt : String)
    (hb : tru i.border = some b) (hsg : isStyleguideRef d b "border" = true)
    (h1 : tgt ≠ "display") (h2 : tgt ≠ "vertical-align")
    (h3 : tgt ≠ "max-width") (h4 : tgt ≠ "width") (h5 : tgt ≠ "height")
    (h6 : tgt ≠ "border-radius") (h7 : tgt ≠ "box-shadow")
    (h8 : tgt ≠ "border-color") (h9 : tgt ≠ "object-fit") :
    (imageImgStyles d i).lookup tgt = none := by
  simp only [imageImgStyles, List.cons_append, List.nil_append]
  rw [lookup_cons_ne _ _ _ _ h1, lookup_cons_ne _ _ _ _ h2,
    lookup_cons_ne _ _ _ _ h3, lookup_cons_ne _ _ _ _ h4]
  simp only [lookup_append]
  rw [lookup_optStyle_ne _ _ _ h5,
    lookup_ite_single_ne _ _ _ _ h6,
    lookup_ite_single_ne _ _ _ _ h7,
    imageBorderFrag_sg d i b hb hsg,
    lookup_optStyle_ne _ _ _ h8,
    lookup_optStyle_ne _ _ _ h9]
  rfl

theorem lookup_imageImgStyles_corner_sg (d : Option StyleguideData)
    (i : ImageIn) (hrf : refFlag d i.corner "corner" = true) :
    (imageImgStyles d i).lookup "border-radius" = none := by
  simp only [imageImgStyles, List.cons_append, List.nil_append]
  rw [lookup_cons_ne _ _ _ _
      (show ("border-radius" : String) ≠ "display" by decide),
    lookup_cons_ne _ _ _ _
      (show ("border-radius" : String) ≠ "vertical-align" by decide),
    lookup_cons_ne _ _ _ _
      (show ("border-radius" : String) ≠ "max-width" by decide),
    lookup_cons_ne _ _ _ _
      (show ("border-radius" : String) ≠ "width" by decide)]
  simp only [lookup_append]
  rw [lookup_optStyle_ne _ _ _
      (show ("border-radius" : String) ≠ "height" by decide),
    lookup_ite_nil_false _ _ _ (by simp [hrf]),
    lookup_ite_single_ne _ _ _ _
      (show ("border-radius" : String) ≠ "box-shadow" by decide),
    lookup_imageBorderFrag_ne _ _ _ (show ("border-radius" : String)
      ≠ "border-width" by decide) (show ("border-radius" : String)
      ≠ "border-style" by decide),
    lookup_optStyle_ne _ _ _
      (show ("border-radius" : String) ≠ "border-color" by decide),
    lookup_optStyle_ne _ _ _
      (show ("border-radius" : String) ≠ "object-fit" by decide)]
  rfl

theorem lookup_sectionDataAttrs_sg_shadow (d : Option StyleguideData)
    (ba : Option (List (String × List String))) (i : SectionIn) (s : String)
    (hs : tru i.shadow = some s) (hsg : isStyleguideRef d s "shadow" = true) :
    (sectionDataAttrs d ba i).lookup "data-style-guide-shadow" = some s := by
  have hrf : refFlag d i.shadow "shadow" = true := by
    simp [refFlag, hs, hsg]
  simp only [sectionDataAttrs, List.cons_append, List.nil_append]
  rw [lookup_cons_ne _ _ _ _
      (show ("data-style-guide-shadow" : String) ≠ "data-type" by decide),
    lookup_cons_ne _ _ _ _ (show ("data-style-guide-shadow" : String)
      ≠ "data-container" by decide)]
  simp only [lookup_append,
    lookup_optAttr_ne _ _ _ (show ("data-style-guide-shadow" : String)
      ≠ "data-show" by decide),
    lookup_condAttr_ne _ _ _ _ (show ("data-style-guide-shadow" : String)
      ≠ "data-bg-style" by decide),
    lookup_optAttr_ne _ _ _ (show ("data-style-guide-shadow" : String)
      ≠ "data-overlay" by decide),
    lookup_optAttr_ne _ _ _ (show ("data-style-guide-shadow" : String)
      ≠ "data-bg-image" by decide),
    lookup_optAttr_ne _ _ _ (show ("data-style-guide-shadow" : String)
      ≠ "data-brand-asset" by decide),
    lookup_optAttr_ne _ _ _ (show ("data-style-guide-shadow" : String)
      ≠ "data-paint-colors" by decide),
    lookup_condAttr_self, hrf, if_true, option_none_or, option_some_or]
  simp [attrD, hs]

theorem lookup_sectionDataAttrs_sg_border (d : Option StyleguideData)
    (ba : Option (List (String × List String))) (i : SectionIn) (b : String)
    (hb : tru i.border = some b) (hsg : isStyleguideRef d b "border" = true) :
    (sectionDataAttrs d ba i).lookup "data-style-guide-border" = some b := by
  have hrf : refFlag d i.border "border" = true := by
    simp [refFlag, hb, hsg]
  simp only [sectionDataAttrs, List.cons_append, List.nil_append]
  rw [lookup_cons_ne _ _ _ _
      (show ("data-style-guide-border" : String) ≠ "data-type" by decide),
    lookup_cons_ne _ _ _ _ (show ("data-style-guide-border" : String)
      ≠ "data-container" by decide)]
  simp only [lookup_append,
    lookup_optAttr_ne _ _ _ (show ("data-style-guide-border" : String)
      ≠ "data-show" by decide),
    lookup_condAttr_ne _ _ _ _ (show ("data-style-guide-border" : String)
      ≠ "data-bg-style" by decide),
    lookup_optAttr_ne _ _ _ (show ("data-style-guide-border" : String)
      ≠ "data-overlay" by decide),
    lookup_optAttr_ne _ _ _ (show ("data-style-guide-border" : String)
      ≠ "data-bg-image" by decide),
    lookup_optAttr_ne _ _ _ (show ("data-style-guide-border" : String)
      ≠ "data-brand-asset" by decide),
    lookup_optAttr_ne _ _ _ (show ("data-style-guide-border" : String)
      ≠ "data-paint-colors" by decide),
    lookup_condAttr_ne _ _ _ _ (show ("data-style-guide-border" : String)
      ≠ "data-style-guide-shadow" by decide),
    lookup_condAttr_self, hrf, if_true, option_none_or, option_some_or]
  simp [attrD, hb]

theorem lookup_sectionDataAttrs_sg_corner (d : Option StyleguideData)
    (ba : Option (List (String × List String))) (i : SectionIn) (c : String)
    (hc : tru i.corner = some c) (hsg : isStyleguideRef d c "corner" = true) :
    (sectionDataAttrs d ba i).lookup "data-style-guide-corner" = some c := by
  have hrf : refFlag d i.corner "corner" = true := by
    simp [refFlag, hc, hsg]
  simp only [sectionDataAttrs, List.cons_append, List.nil_append]
  rw [lookup_cons_ne _ _ _ _
      (show ("data-style-guide-corner" : String) ≠ "data-type" by decide),
    lookup_cons_ne _ _ _ _ (show ("data-style-guide-corner" : String)
      ≠ "data-container" by decide)]
  simp only [lookup_append,
    lookup_optAttr_ne _ _ _ (show ("data-style-guide-corner" : String)
      ≠ "data-show" by decide),
    lookup_condAttr_ne _ _ _ _ (show ("data-style-guide-corner" : String)
      ≠ "data-bg-style" by decide),
    lookup_optAttr_ne _ _ _ (show ("data-style-guide-corner" : String)
      ≠ "data-overlay" by decide),
    lookup_optAttr_ne _ _ _ (show ("data-style-guide-corner" : String)
      ≠ "data-bg-image" by decide),
    lookup_optAttr_ne _ _ _ (show ("data-style-guide-corner" : String)
      ≠ "data-brand-asset" by decide),
    lookup_optAttr_ne _ _ _ (show ("data-style-guide-corner" : String)
      ≠ "data-paint-colors" by decide),
    lookup_condAttr_ne _ _ _ _ (show ("data-style-guide-corner" : String)
      ≠ "data-style-guide-shadow" by decide),
    lookup_condAttr_ne _ _ _ _ (show ("data-style-guide-corner" : String)
      ≠ "data-style-guide-border" by decide),
    lookup_condAttr_self, hrf, if_true, option_none_or, option_some_or]
  simp [attrD, hc]

theorem lookup_imageDataAttrs_sg_shadow (d : Option StyleguideData)
    (i : ImageIn) (s : String)
    (hs : tru i.shadow = some s) (hsg : isStyleguideRef d s "shadow" = true) :
    (imageDataAttrs d i).lookup "data-style-guide-shadow" = some s := by
  have hrf : refFlag d i.shadow "shadow" = true := by
    simp [refFlag, hs, hsg]
  simp only [imageDataAttrs, List.cons_append, List.nil_append]
  rw [lookup_cons_ne _ _ _ _
      (show ("data-style-guide-shadow" : String) ≠ "data-type" by decide),
    lookup_cons_ne _ _ _ _
      (show ("data-style-guide-shadow" : String) ≠ "data-src" by decide)]
  simp only [lookup_append,
    lookup_condAttr_ne _ _ _ _ (show ("data-style-guide-shadow" : String)
      ≠ "data-alt" by decide),
    lookup_condAttr_ne _ _ _ _ (show ("data-style-guide-shadow" : String)
      ≠ "data-width" by decide),
    lookup_optAttr_ne _ _ _ (show ("data-style-guide-shadow" : String)
      ≠ "data-height" by decide),
    lookup_condAttr_ne _ _ _ _ (show ("data-style-guide-shadow" : String)
      ≠ "data-align" by decide),
    lookup_optAttr_ne _ _ _ (show ("data-style-guide-shadow" : String)
      ≠ "data-rounded" by decide),
    lookup_optAttr_ne _ _ _ (show ("data-style-guide-shadow" : String)
      ≠ "data-corner" by decide),
    lookup_optAttr_ne _ _ _ (show ("data-style-guide-shadow" : String)
      ≠ "data-shadow" by decide),
    lookup_optAttr_ne _ _ _ (show ("data-style-guide-shadow" : String)
      ≠ "data-border" by decide),
    lookup_condAttr_ne _ _ _ _ (show ("data-style-guide-shadow" : String)
      ≠ "data-border-style" by decide),
    lookup_optAttr_ne _ _ _ (show ("data-style-guide-shadow" : String)
      ≠ "data-border-color" by decide),
    lookup_optAttr_ne _ _ _ (show ("data-style-guide-shadow" : String)
      ≠ "data-object-fit" by decide),
    lookup_optAttr_ne _ _ _ (show ("data-style-guide-shadow" : String)
      ≠ "data-brand-asset" by decide),
    lookup_condAttr_self, hrf, if_true, option_none_or, option_some_or]
  simp [attrD, hs]

theorem lookup_imageDataAttrs_sg_border (d : Option StyleguideData)
    (i : ImageIn) (b : String)
    (hb : tru i.border = some b) (hsg : isStyleguideRef d b "border" = true) :
    (imageDataAttrs d i).lookup "data-style-guide-border" = some b := by
  have hrf : refFlag d i.border "border" = true := by
    simp [refFlag, hb, hsg]
  simp only [imageDataAttrs, List.cons_append, List.nil_append]
  rw [lookup_cons_ne _ _ _ _
      (show ("data-style-guide-border" : String) ≠ "data-type" by decide),
    lookup_cons_ne _ _ _ _
      (show ("data-style-guide-border" : String) ≠ "data-src" by decide)]
  simp only [lookup_append,
    lookup_condAttr_ne _ _ _ _ (show ("data-style-guide-border" : String)
      ≠ "data-alt" by decide),
    lookup_condAttr_ne _ _ _ _ (show ("data-style-guide-border" : String)
      ≠ "data-width" by decide),
    lookup_optAttr_ne _ _ _ (show ("data-style-guide-border" : String)
      ≠ "data-height" by decide),
    lookup_condAttr_ne _ _ _ _ (show ("data-style-guide-border" : String)
      ≠ "data-align" by decide),
    lookup_optAttr_ne _ _ _ (show ("data-style-guide-border" : String)
      ≠ "data-rounded" by decide),
    lookup_optAttr_ne _ _ _ (show ("data-style-guide-border" : String)
      ≠ "data-corner" by decide),
    lookup_optAttr_ne _ _ _ (show ("data-style-guide-border" : String)
      ≠ "data-shadow" by decide),
    lookup_optAttr_ne _ _ _ (show ("data-style-guide-border" : String)
      ≠ "data-border" by decide),
    lookup_condAttr_ne _ _ _ _ (show ("data-style-guide-border" : String)
      ≠ "data-border-style" by decide),
    lookup_optAttr_ne _ _ _ (show ("data-style-guide-border" : String)
      ≠ "data-border-color" by decide),
    lookup_optAttr_ne _ _ _ (show ("data-style-guide-border" : String)
      ≠ "data-object-fit" by decide),
    lookup_optAttr_ne _ _ _ (show ("data-style-guide-border" : String)
      ≠ "data-brand-asset" by decide),
    lookup_condAttr_ne _ _ _ _ (show ("data-style-guide-border" : String)
      ≠ "data-style-guide-shadow" by decide),
    lookup_condAttr_self, hrf, if_true, option_none_or, option_some_or]
  simp [attrD, hb]

theorem lookup_imageDataAttrs_sg_corner (d : Option StyleguideData)
    (i : ImageIn) (c : String)
    (hc : tru i.corner = some c) (hsg : isStyleguideRef d c "corner" = true) :
    (imageDataAttrs d i).lookup "data-style-guide-corner" = some c := by
  have hrf : refFlag d i.corner "corner" = true := by
    simp [refFlag, hc, hsg]
  simp only [imageDataAttrs, List.cons_append, List.nil_append]
  rw [lookup_cons_ne _ _ _ _
      (show ("data-style-guide-corner" : String) ≠ "data-type" by decide),
    lookup_cons_ne _ _ _ _
      (show ("data-style-guide-corner" : String) ≠ "data-src" by decide)]
  simp only [lookup_append,
    lookup_condAttr_ne _ _ _ _ (show ("data-style-guide-corner" : String)
      ≠ "data-alt" by decide),
    lookup_condAttr_ne _ _ _ _ (show ("data-style-guide-corner" : String)
      ≠ "data-width" by decide),
    lookup_optAttr_ne _ _ _ (show ("data-style-guide-corner" : String)
      ≠ "data-height" by decide),
    lookup_condAttr_ne _ _ _ _ (show ("data-style-guide-corner" : String)
      ≠ "data-align" by decide),
    lookup_optAttr_ne _ _ _ (show ("data-style-guide-corner" : String)
      ≠ "data-rounded" by decide),
    lookup_optAttr_ne _ _ _ (show ("data-style-guide-corner" : String)
      ≠ "data-corner" by decide),
    lookup_optAttr_ne _ _ _ (show ("data-style-guide-corner" : String)
      ≠ "data-shadow" by decide),
    lookup_optAttr_ne _ _ _ (show ("data-style-guide-corner" : String)
      ≠ "data-border" by decide),
    lookup_condAttr_ne _ _ _ _ (show ("data-style-guide-corner" : String)
      ≠ "data-border-style" by decide),
    lookup_optAttr_ne _ _ _ (show ("data-style-guide-corner" : String)
      ≠ "data-border-color" by decide),
    lookup_optAttr_ne _ _ _ (show ("data-style-guide-corner" : String)
      ≠ "data-object-fit" by decide),
    lookup_optAttr_ne _ _ _ (show ("data-style-guide-corner" : String)
      ≠ "data-brand-asset" by decide),
    lookup_condAttr_ne _ _ _ _ (show ("data-style-guide-corner" : String)
      ≠ "data-style-guide-shadow" by decide),
    lookup_condAttr_ne _ _ _ _ (show ("data-style-guide-corner" : String)
      ≠ "data-style-guide-border" by decide),
    lookup_condAttr_self, hrf, if_true, option_none_or, option_some_or]
  simp [attrD, hc]

theorem lookup_flexDataAttrs_sg_shadow (d : Option StyleguideData)
    (i : FlexIn) (s : String)
    (hs : tru i.shadow = some s) (hsg : isStyleguideRef d s "shadow" = true) :
    (flexDataAttrs d i).lookup "data-style-guide-shadow" = some s := by
  have hrf : refFlag d i.shadow "shadow" = true := by
    simp [refFlag, hs, hsg]
  simp only [flexDataAttrs, List.cons_append, List.nil_append]
  rw [lookup_cons_ne _ _ _ _
      (show ("data-style-guide-shadow" : String) ≠ "data-type" by decide)]
  simp only [lookup_append]
  rw [lookup_optAttr_ne _ _ _ (show ("data-style-guide-shadow" : String)
      ≠ "data-show" by decide),
    lookup_cons_ne _ _ _ _ (show ("data-style-guide-shadow" : String)
      ≠ "data-direction" by decide),
    lookup_cons_ne _ _ _ _ (show ("data-style-guide-shadow" : String)
      ≠ "data-justify" by decide),
    lookup_cons_ne _ _ _ _ (show ("data-style-guide-shadow" : String)
      ≠ "data-items" by decide),
    lookup_condAttr_ne _ _ _ _ (show ("data-style-guide-shadow" : String)
      ≠ "data-wrap" by decide),
    lookup_cons_ne _ _ _ _ (show ("data-style-guide-shadow" : String)
      ≠ "data-gap" by decide),
    lookup_optAttr_ne _ _ _ (show ("data-style-guide-shadow" : String)
      ≠ "data-width" by decide),
    lookup_optAttr_ne _ _ _ (show ("data-style-guide-shadow" : String)
      ≠ "data-height" by decide),
    lookup_optAttr_ne _ _ _ (show ("data-style-guide-shadow" : String)
      ≠ "data-paint-colors" by decide),
    lookup_condAttr_self, hrf]
  simp [attrD, hs]

theorem lookup_flexDataAttrs_sg_border (d : Option StyleguideData)
    (i : FlexIn) (b : String)
    (hb : tru i.border = some b) (hsg : isStyleguideRef d b "border" = true) :
    (flexDataAttrs d i).lookup "data-style-guide-border" = some b := by
  have hrf : refFlag d i.border "border" = true := by
    simp [refFlag, hb, hsg]
  simp only [flexDataAttrs, List.cons_append, List.nil_append]
  rw [lookup_cons_ne _ _ _ _
      (show ("data-style-guide-border" : String) ≠ "data-type" by decide)]
  simp only [lookup_append]
  rw [lookup_optAttr_ne _ _ _ (show ("data-style-guide-border" : String)
      ≠ "data-show" by decide),
    lookup_cons_ne _ _ _ _ (show ("data-style-guide-border" : String)
      ≠ "data-direction" by decide),
    lookup_cons_ne _ _ _ _ (show ("data-style-guide-border" : String)
      ≠ "data-justify" by decide),
    lookup_cons_ne _ _ _ _ (show ("data-style-guide-border" : String)
      ≠ "data-items" by decide),
    lookup_condAttr_ne _ _ _ _ (show ("data-style-guide-border" : String)
      ≠ "data-wrap" by decide),
    lookup_cons_ne _ _ _ _ (show ("data-style-guide-border" : String)
      ≠ "data-gap" by decide),
    lookup_optAttr_ne _ _ _ (show ("data-style-guide-border" : String)
      ≠ "data-width" by decide),
    lookup_optAttr_ne _ _ _ (show ("data-style-guide-border" : String)
      ≠ "data-height" by decide),
    lookup_optAttr_ne _ _ _ (show ("data-style-guide-border" : String)
      ≠ "data-paint-colors" by decide),
    lookup_condAttr_ne _ _ _ _ (show ("data-style-guide-border" : String)
      ≠ "data-style-guide-shadow" by decide),
    lookup_condAttr_self, hrf]
  simp [attrD, hb]

theorem lookup_flexDataAttrs_sg_corner (d : Option StyleguideData)
    (i : FlexIn) (c : String)
    (hc : tru i.corner = some c) (hsg : isStyleguideRef d c "corner" = true) :
    (flexDataAttrs d i).lookup "data-style-guide-corner" = some c := by
  have hrf : refFlag d i.corner "corner" = true := by
    simp [refFlag, hc, hsg]
  simp only [flexDataAttrs, List.cons_append, List.nil_append]
  rw [lookup_cons_ne _ _ _ _
      (show ("data-style-guide-corner" : String) ≠ "data-type" by decide)]
  simp only [lookup_append]
  rw [lookup_optAttr_ne _ _ _ (show ("data-style-guide-corner" : String)
      ≠ "data-show" by decide),
    lookup_cons_ne _ _ _ _ (show ("data-style-guide-corner" : String)
      ≠ "data-direction" by decide),
    lookup_cons_ne _ _ _ _ (show ("data-style-guide-corner" : String)
      ≠ "data-justify" by decide),
    lookup_cons_ne _ _ _ _ (show ("data-style-guide-corner" : String)
      ≠ "data-items" by decide),
    lookup_condAttr_ne _ _ _ _ (show ("data-style-guide-corner" : String)
      ≠ "data-wrap" by decide),
    lookup_cons_ne _ _ _ _ (show ("data-style-guide-corner" : String)
      ≠ "data-gap" by decide),
    lookup_optAttr_ne _ _ _ (show ("data-style-guide-corner" : String)
      ≠ "data-width" by decide),
    lookup_optAttr_ne _ _ _ (show ("data-style-guide-corner" : String)
      ≠ "data-height" by decide),
    lookup_optAttr_ne _ _ _ (show ("data-style-guide-corner" : String)
      ≠ "data-paint-colors" by decide),
    lookup_condAttr_ne _ _ _ _ (show ("data-style-guide-corner" : String)
      ≠ "data-style-guide-shadow" by decide),
    lookup_condAttr_ne _ _ _ _ (show ("data-style-guide-corner" : String)
      ≠ "data-style-guide-border" by decide),
    lookup_condAttr_self, hrf]
  simp [attrD, hc]

/-- C3: styleguide-id exclusivity. In the section, image and flex
renderers, an attribute value that is a catalog id of its category
(`shadow`, `border`, `corner`) produces no inline CSS declaration for
that property — no `box-shadow`, no `border-width`/`border-style`, no
`border-radius` (for the image, also no inner clipping container) — and
the catalog id is persisted verbatim as the matching `data-style-guide-*`
attribute. The corner conjuncts hold with no assumption on `rounded`, so
the catalog reference takes precedence over any inline preset radius. -/
theorem c3_styleguide_ref_exclusive (d : Option StyleguideData)
    (ba : Option (List (String × List String))) :
    (∀ (i : SectionIn) (s : String), tru i.shadow = some s →
      isStyleguideRef d s "shadow" = true →
        (sectionStyles d ba i).lookup "box-shadow" = none
        ∧ (sectionDataAttrs d ba i).lookup "data-style-guide-shadow"
          = some s)
    ∧ (∀ (i : SectionIn) (b : String), tru i.border = some b →
      isStyleguideRef d b "border" = true →
        (sectionStyles d ba i).lookup "border-width" = none
        ∧ (sectionStyles d ba i).lookup "border-style" = none
        ∧ (sectionDataAttrs d ba i).lookup "data-style-guide-border"
          = some b)
    ∧ (∀ (i : SectionIn) (c : String), tru i.corner = some c →
      isStyleguideRef d c "corner" = true →
        (sectionStyles d ba i).lookup "border-radius" = none
        ∧ (sectionDataAttrs d ba i).lookup "data-style-guide-corner"
          = some c)
    ∧ (∀ (i : ImageIn) (s : String), tru i.shadow = some s →
      isStyleguideRef d s "shadow" = true →
        (imageImgStyles d i).lookup "box-shadow" = none
        ∧ imageInnerStyles d i = none
        ∧ (imageDataAttrs d i).lookup "data-style-guide-shadow" = some s)
    ∧ (∀ (i : ImageIn) (b : String), tru i.border = some b →
      isStyleguideRef d b "border" = true →
        (imageImgStyles d i).lookup "border-width" = none
        ∧ (imageImgStyles d i).lookup "border-style" = none
        ∧ (imageDataAttrs d i).lookup "data-style-guide-border" = some b)
    ∧ (∀ (i : ImageIn) (c : String), tru i.corner = some c →
      isStyleguideRef d c "corner" = true →
        (imageImgStyles d i).lookup "border-radius" = none
        ∧ imageInnerStyles d i = none
        ∧ (imageDataAttrs d i).lookup "data-style-guide-corner" = some c)
    ∧ (∀ (i : FlexIn) (s : String), tru i.shadow = some s →
      isStyleguideRef d s "shadow" = true →
        (flexStyles d i).lookup "box-shadow" = none
        ∧ (flexDataAttrs d i).lookup "data-style-guide-shadow" = some s)
    ∧ (∀ (i : FlexIn) (b : String), tru i.border = some b →
      isStyleguideRef d b "border" = true →
        (flexStyles d i).lookup "border-width" = none
        ∧ (flexStyles d i).lookup "border-style" = none
        ∧ (flexDataAttrs d i).lookup "data-style-guide-border" = some b)
    ∧ (∀ (i : FlexIn) (c : String), tru i.corner = some c →
      isStyleguideRef d c "corner" = true →
        (flexStyles d i).lookup "border-radius" = none
        ∧ (flexDataAttrs d i).lookup "data-style-guide-corner" = some c) := by
  refine ⟨?_, ?_, ?_, ?_, ?_, ?_, ?_, ?_, ?_⟩
  · intro i s hs hsg
    have hrf : refFlag d i.shadow "shadow" = true := by
      simp [refFlag, hs, hsg]
    refine ⟨?_, lookup_sectionDataAttrs_sg_shadow d ba i s hs hsg⟩
    exact lookup_sectionStyles_none d ba i "box-shadow"
      (fun o => lookup_shadowStep_sg d i.shadow o _ hrf)
      (fun o => lookup_sectionRadiusStep_ne d _ i.corner o _ (by decide))
      (fun o => lookup_borderStep_ne d _ _ o _ (by decide) (by decide))
      (by decide) (by decide) (by decide) (by decide) (by decide)
      (by decide) (by decide) (by decide) (by decide) (by decide)
      (by decide) (by decide) (by decide) (by decide) (by decide)
  · intro i b hb hsg
    have hrf : refFlag d i.border "border" = true := by
      simp [refFlag, hb, hsg]
    refine ⟨?_, ?_, lookup_sectionDataAttrs_sg_border d ba i b hb hsg⟩
    · exact lookup_sectionStyles_none d ba i "border-width"
        (fun o => lookup_shadowStep_ne d _ o _ (by decide))
        (fun o => lookup_sectionRadiusStep_ne d _ i.corner o _ (by decide))
        (fun o => lookup_borderStep_sg d _ _ o _ hrf)
        (by decide) (by decide) (by decide) (by decide) (by decide)
        (by decide) (by decide) (by decide) (by decide) (by decide)
        (by decide) (by decide) (by decide) (by decide) (by decide)
    · exact lookup_sectionStyles_none d ba i "border-style"
        (fun o => lookup_shadowStep_ne d _ o _ (by decide))
        (fun o => lookup_sectionRadiusStep_ne d _ i.corner o _ (by decide))
        (fun o => lookup_borderStep_sg d _ _ o _ hrf)
        (by decide) (by decide) (by decide) (by decide) (by decide)
        (by decide) (by decide) (by decide) (by decide) (by decide)
        (by decide) (by decide) (by decide) (by decide) (by decide)
  · intro i c hc hsg
    have hrf : refFlag d i.corner "corner" = true := by
      simp [refFlag, hc, hsg]
    refine ⟨?_, lookup_sectionDataAttrs_sg_corner d ba i c hc hsg⟩
    exact lookup_sectionStyles_none d ba i "border-radius"
      (fun o => lookup_shadowStep_ne d _ o _ (by decide))
      (fun o => lookup_sectionRadiusStep_sg d _ i.corner o _ hrf)
      (fun o => lookup_borderStep_ne d _ _ o _ (by decide) (by decide))
      (by decide) (by decide) (by decide) (by decide) (by decide)
      (by decide) (by decide) (by decide) (by decide) (by decide)
      (by decide) (by decide) (by decide) (by decide) (by decide)
  · intro i s hs hsg
    have hrf : refFlag d i.shadow "shadow" = true := by
      simp [refFlag, hs, hsg]
    exact ⟨lookup_imageImgStyles_shadow_sg d i hrf,
      imageInnerStyles_none d i (imageNeedsInner_false_of_shadow_sg d i hrf),
      lookup_imageDataAttrs_sg_shadow d i s hs hsg⟩
  · intro i b hb hsg
    exact ⟨lookup_imageImgStyles_border_sg d i b "border-width" hb hsg
        (by decide) (by decide) (by decide) (by decide) (by decide)
        (by decide) (by decide) (by decide) (by decide),
      lookup_imageImgStyles_border_sg d i b "border-style" hb hsg
        (by decide) (by decide) (by decide) (by decide) (by decide)
        (by decide) (by decide) (by decide) (by decide),
      lookup_imageDataAttrs_sg_border d i b hb hsg⟩
  · intro i c hc hsg
    have hrf : refFlag d i.corner "corner" = true := by
      simp [refFlag, hc, hsg]
    exact ⟨lookup_imageImgStyles_corner_sg d i hrf,
      imageInnerStyles_none d i (imageNeedsInner_false_of_corner_sg d i hrf),
      lookup_imageDataAttrs_sg_corner d i c hc hsg⟩
  · intro i s hs hsg
    have hrf : refFlag d i.shadow "shadow" = true := by
      simp [refFlag, hs, hsg]
    refine ⟨?_, lookup_flexDataAttrs_sg_shadow d i s hs hsg⟩
    exact lookup_flexStyles_none d i "box-shadow"
      (fun o => lookup_shadowStep_sg d i.shadow o _ hrf)
      (fun o => lookup_flexRadiusStep_ne d _ i.corner o _ (by decide))
      (fun o => lookup_borderStep_ne d _ _ o _ (by decide) (by decide))
      (by decide) (by decide) (by decide) (by decide) (by decide)
      (by decide) (by decide) (by decide) (by decide) (by decide)
      (by decide) (by decide) (by decide) (by decide) (by decide)
      (by decide) (by decide) (by decide) (by decide)
  · intro i b hb hsg
    have hrf : refFlag d i.border "border" = true := by
      simp [refFlag, hb, hsg]
    refine ⟨?_, ?_, lookup_flexDataAttrs_sg_border d i b hb hsg⟩
    · exact lookup_flexStyles_none d i "border-width"
        (fun o => lookup_shadowStep_ne d _ o _ (by decide))
        (fun o => lookup_flexRadiusStep_ne d _ i.corner o _ (by decide))
        (fun o => lookup_borderStep_sg d _ _ o _ hrf)
        (by decide) (by decide) (by decide) (by decide) (by decide)
        (by decide) (by decide) (by decide) (by decide) (by decide)
        (by decide) (by decide) (by decide) (by decide) (by decide)
        (by decide) (by decide) (by decide) (by decide)
    · exact lookup_flexStyles_none d i "border-style"
        (fun o => lookup_shadowStep_ne d _ o _ (by decide))
        (fun o => lookup_flexRadiusStep_ne d _ i.corner o _ (by decide))
        (fun o => lookup_borderStep_sg d _ _ o _ hrf)
        (by decide) (by decide) (by decide) (by decide) (by decide)
        (by decide) (by decide) (by decide) (by decide) (by decide)
        (by decide) (by decide) (by decide) (by decide) (by decide)
        (by decide) (by decide) (by decide) (by decide)
  · intro i c hc hsg
    have hrf : refFlag d i.corner "corner" = true := by
      simp [refFlag, hc, hsg]
    refine ⟨?_, lookup_flexDataAttrs_sg_corner d i c hc hsg⟩
    exact lookup_flexStyles_none d i "border-radius"
      (fun o => lookup_shadowStep_ne d _ o _ (by decide))
      (fun o => lookup_flexRadiusStep_sg d _ i.corner o _ hrf)
      (fun o => lookup_borderStep_ne d _ _ o _ (by decide) (by decide))
      (by decide) (by decide) (by decide) (by decide) (by decide)
      (by decide) (by decide) (by decide) (by decide) (by decide)
      (by decide) (by decide) (by decide) (by decide) (by decide)
      (by decide) (by decide) (by decide) (by decide)

/-- Witness for C3 on the demo styleguide, whose catalogs hold the id
`"style1"`: a section with a catalog shadow, a section with a catalog
corner next to an inline `rounded="lg"`, and an image with a catalog
border. -/
theorem c3_styleguide_ref_exclusive_witness :
    (sectionStyles (some sgDemo) none
      { emptySectionIn with shadow := some "style1" }).lookup "box-shadow"
      = none
    ∧ (sectionDataAttrs (some sgDemo) none
      { emptySectionIn with shadow := some "style1" }).lookup
      "data-style-guide-shadow" = some "style1"
    ∧ (sectionStyles (some sgDemo) none
      { emptySectionIn with
        rounded := some "lg", corner := some "style1" }).lookup
      "border-radius" = none
    ∧ (imageImgStyles (some sgDemo)
      { emptyImageIn with border := some "style1" }).lookup "border-width"
      = none :=
  ⟨((c3_styleguide_ref_exclusive (some sgDemo) none).1
      { emptySectionIn with shadow := some "style1" } "style1" rfl
      (by decide)).1,
   ((c3_styleguide_ref_exclusive (some sgDemo) none).1
      { emptySectionIn with shadow := some "style1" } "style1" rfl
      (by decide)).2,
   ((c3_styleguide_ref_exclusive (some sgDemo) none).2.2.1
      { emptySectionIn with
        rounded := some "lg", corner := some "style1" } "style1" rfl
      (by decide)).1,
   ((c3_styleguide_ref_exclusive (some sgDemo) none).2.2.2.2.1
      { emptyImageIn with border := some "style1" } "style1" rfl
      (by decide)).1⟩

theorem applyFontAttrs_fields (ty : Option Typography) (a : ElAttrs) :
    (applyFontAttrs ty a).dataColor = a.dataColor
    ∧ (applyFontAttrs ty a).colorExplicit = a.colorExplicit
    ∧ (applyFontAttrs ty a).dataType = a.dataType
    ∧ (applyFontAttrs ty a).paintColors = a.paintColors := by
  cases ty with
  | none => exact ⟨rfl, rfl, rfl, rfl⟩
  | some t =>
    cases hh : t.headlineFont <;> cases hs2 : t.subheadlineFont <;>
      cases hc2 : t.contentFont <;>
      simp only [applyFontAttrs, hh, hs2, hc2] <;>
      (try split_ifs) <;> simp_all

theorem applyThemeAttrs_explicit (d : Option StyleguideData) (th : PaintTheme)
    (a : ElAttrs) (h : a.colorExplicit = true) :
    (applyThemeAttrs d th a).dataColor = a.dataColor := by
  simp only [applyThemeAttrs]
  split <;> cases hl : th.linkColorId <;> (try split_ifs) <;> simp_all

theorem applyThemeAttrs_role (d : Option StyleguideData) (th : PaintTheme)
    (a : ElAttrs) (h : a.colorExplicit = false) :
    (a.dataType = some "Headline/V1" →
      (applyThemeAttrs d th a).dataColor
        = some (getColorHex d th.headlineColorId))
    ∧ (a.dataType = some "SubHeadline/V1" →
      (applyThemeAttrs d th a).dataColor
        = some (getColorHex d th.subheadlineColorId))
    ∧ (a.dataType = some "Paragraph/V1" →
      (applyThemeAttrs d th a).dataColor
        = some (getColorHex d th.contentColorId))
    ∧ (a.dataType = some "Icon/V1" →
      (applyThemeAttrs d th a).dataColor
        = some (getColorHex d th.iconColorId)) := by
  refine ⟨?_, ?_, ?_, ?_⟩ <;> intro hdt <;>
    simp only [applyThemeAttrs, hdt] <;>
    cases hl : th.linkColorId <;> simp [h]

theorem cascadeAttrs_dataColor_explicit (d : Option StyleguideData)
    (c : Option String) (a : ElAttrs) (h : a.colorExplicit = true) :
    (cascadeAttrs d c a).dataColor = a.dataColor := by
  cases d with
  | none => rfl
  | some sg =>
    have hf := applyFontAttrs_fields sg.typography a
    simp only [cascadeAttrs]
    by_cases hp : (applyFontAttrs sg.typography a).paintColors.isSome
    · rw [if_pos hp]
      exact hf.1
    · rw [if_neg hp]
      cases c with
      | none => exact hf.1
      | some pid =>
        cases hth : sg.paintThemes with
        | none => simpa using hf.1
        | some themes =>
          cases themes with
          | nil => simpa using hf.1
          | cons t0 rest =>
            cases htf : themeFor (t0 :: rest) pid with
            | none => simpa [htf] using hf.1
            | some th =>
              have h2 := applyThemeAttrs_explicit (some sg) th
                (applyFontAttrs sg.typography a) (hf.2.1.trans h)
              simpa [htf] using h2.trans hf.1

theorem cascadeAttrs_dataColor_noctx (d : Option StyleguideData)
    (a : ElAttrs) : (cascadeAttrs d none a).dataColor = a.dataColor := by
  cases d with
  | none => rfl
  | some sg =>
    have hf := applyFontAttrs_fields sg.typography a
    simp only [cascadeAttrs]
    by_cases hp : (applyFontAttrs sg.typography a).paintColors.isSome
    · rw [if_pos hp]
      exact hf.1
    · rw [if_neg hp]
      exact hf.1

theorem cascadeAttrs_dataColor_nomatch (sg : StyleguideData) (pid : String)
    (a : ElAttrs)
    (hnm : themeFor (sg.paintThemes.getD []) pid = none) :
    (cascadeAttrs (some sg) (some pid) a).dataColor = a.dataColor := by
  have hf := applyFontAttrs_fields sg.typography a
  simp only [cascadeAttrs]
  by_cases hp : (applyFontAttrs sg.typography a).paintColors.isSome
  · rw [if_pos hp]
    exact hf.1
  · rw [if_neg hp]
    cases hth : sg.paintThemes with
    | none => simpa using hf.1
    | some themes =>
      cases themes with
      | nil => simpa using hf.1
      | cons t0 rest =>
        rw [hth] at hnm
        simp only [Option.getD_some] at hnm
        simpa [hnm] using hf.1

theorem cascadeAttrs_role (sg : StyleguideData) (pid : String) (a : ElAttrs)
    (t0 : PaintTheme) (rest : List PaintTheme) (th : PaintTheme)
    (hth : sg.paintThemes = some (t0 :: rest))
    (htf : themeFor (t0 :: rest) pid = some th)
    (hexp : a.colorExplicit = false) (hpc : a.paintColors = none) :
    (a.dataType = some "Headline/V1" →
      (cascadeAttrs (some sg) (some pid) a).dataColor
        = some (getColorHex (some sg) th.headlineColorId))
    ∧ (a.dataType = some "SubHeadline/V1" →
      (cascadeAttrs (some sg) (some pid) a).dataColor
        = some (getColorHex (some sg) th.subheadlineColorId))
    ∧ (a.dataType = some "Paragraph/V1" →
      (cascadeAttrs (some sg) (some pid) a).dataColor
        = some (getColorHex (some sg) th.contentColorId))
    ∧ (a.dataType = some "Icon/V1" →
      (cascadeAttrs (some sg) (some pid) a).dataColor
        = some (getColorHex (some sg) th.iconColorId)) := by
  have hf := applyFontAttrs_fields sg.typography a
  have hp : (applyFontAttrs sg.typography a).paintColors.isSome = false := by
    rw [hf.2.2.2, hpc]
    rfl
  have hrole := applyThemeAttrs_role (some sg) th
    (applyFontAttrs sg.typography a) (hf.2.1.trans hexp)
  refine ⟨?_, ?_, ?_, ?_⟩ <;> intro hdt <;>
    simp only [cascadeAttrs, hth, htf] <;>
    rw [if_neg (by simp [hp])]
  · exact hrole.1 (hf.2.2.1.trans hdt)
  · exact hrole.2.1 (hf.2.2.1.trans hdt)
  · exact hrole.2.2.1 (hf.2.2.1.trans hdt)
  · exact hrole.2.2.2 (hf.2.2.1.trans hdt)

mutual
theorem treeAttrsAt_cascade (d : Option StyleguideData) :
    ∀ (ctx : Option String) (t : ETree) (p : List ℕ),
    treeAttrsAt (cascadeTree d ctx t) p
      = (treeCtxAt ctx t p).bind
          (fun c => (treeAttrsAt t p).map (cascadeAttrs d c))
  | _, .node _ _, [] => rfl
  | ctx, .node a f, i :: p => by
    cases hpc : a.paintColors with
    | none =>
      simpa [cascadeTree, treeAttrsAt, treeCtxAt, hpc] using
        forestAttrsAt_cascade d ctx f i p
    | some q =>
      simpa [cascadeTree, treeAttrsAt, treeCtxAt, hpc] using
        forestAttrsAt_cascade d (some q) f i p
theorem forestAttrsAt_cascade (d : Option StyleguideData) :
    ∀ (ctx : Option String) (f : EForest) (i : ℕ) (p : List ℕ),
    forestAttrsAt (cascadeForest d ctx f) i p
      = (forestCtxAt ctx f i p).bind
          (fun c => (forestAttrsAt f i p).map (cascadeAttrs d c))
  | _, .nil, _, _ => rfl
  | ctx, .cons t _, 0, p => treeAttrsAt_cascade d ctx t p
  | ctx, .cons _ f, i + 1, p => forestAttrsAt_cascade d ctx f i p
end

/-- C4: the paint cascade is explicit-preserving and scoped to the
nearest paint container. For a node at path `p` with attributes `a` and
nearest strict-ancestor paint id `c`: the cascaded tree holds
`cascadeAttrs d c a` at `p`; an element with the explicit-color marker
keeps its `data-color` unchanged; a non-explicit text/icon element whose
nearest paint ancestor carries theme `th` receives `th`'s role color for
its `data-type` (headline/subheadline/content/icon); an element with no
paint ancestor, or whose nearest ancestor's id matches no theme, keeps
its color — so two sibling paint containers each color exactly their own
non-explicit descendants. -/
theorem c4_paint_cascade_scoped (d : Option StyleguideData) (t : ETree)
    (p : List ℕ) (a : ElAttrs) (c : Option String)
    (ha : treeAttrsAt t p = some a) (hc : treeCtxAt none t p = some c) :
    treeAttrsAt (cascadeTree d none t) p = some (cascadeAttrs d c a)
    ∧ (a.colorExplicit = true →
        (cascadeAttrs d c a).dataColor = a.dataColor)
    ∧ (∀ sg t0 rest th pid, d = some sg → c = some pid →
        sg.paintThemes = some (t0 :: rest) →
        themeFor (t0 :: rest) pid = some th →
        a.colorExplicit = false → a.paintColors = none →
        (a.dataType = some "Headline/V1" →
          (cascadeAttrs d c a).dataColor
            = some (getColorHex d th.headlineColorId))
        ∧ (a.dataType = some "SubHeadline/V1" →
          (cascadeAttrs d c a).dataColor
            = some (getColorHex d th.subheadlineColorId))
        ∧ (a.dataType = some "Paragraph/V1" →
          (cascadeAttrs d c a).dataColor
            = some (getColorHex d th.contentColorId))
        ∧ (a.dataType = some "Icon/V1" →
          (cascadeAttrs d c a).dataColor
            = some (getColorHex d th.iconColorId)))
    ∧ (c = none → (cascadeAttrs d c a).dataColor = a.dataColor)
    ∧ (∀ sg pid, d = some sg → c = some pid →
        themeFor (sg.paintThemes.getD []) pid = none →
        (cascadeAttrs d c a).dataColor = a.dataColor) := by
  refine ⟨?_, ?_, ?_, ?_, ?_⟩
  · rw [treeAttrsAt_cascade d none t p, hc, ha]
    rfl
  · exact cascadeAttrs_dataColor_explicit d c a
  · rintro sg t0 rest th pid rfl rfl hth htf hexp hpc
    exact cascadeAttrs_role sg pid a t0 rest th hth htf hexp hpc
  · rintro rfl
    exact cascadeAttrs_dataColor_noctx d a
  · rintro sg pid rfl rfl hnm
    exact cascadeAttrs_dataColor_nomatch sg pid a hnm

/-- Witness for C4 on two sibling paint containers (`dark`, `light`):
each non-explicit headline receives its own container's headline color
(`#111111` under `dark`, `#eeeeee` under `light`), and the headline with
the explicit marker keeps its written color. -/
theorem c4_paint_cascade_scoped_witness :
    treeAttrsAt (cascadeTree (some sgPaint) none siblingPaintTree) [0, 0]
      = some (cascadeAttrs (some sgPaint) (some "dark") headlineAttrs)
    ∧ (cascadeAttrs (some sgPaint) (some "dark") headlineAttrs).dataColor
      = some "#111111"
    ∧ (cascadeAttrs (some sgPaint) (some "light") headlineAttrs).dataColor
      = some "#eeeeee"
    ∧ (cascadeAttrs (some sgPaint) (some "dark") headlineAttrsExp).dataColor
      = some "#abc" := by
  refine ⟨?_, ?_, ?_, ?_⟩
  · exact (c4_paint_cascade_scoped (some sgPaint) siblingPaintTree [0, 0]
      headlineAttrs (some "dark") rfl rfl).1
  · exact ((c4_paint_cascade_scoped (some sgPaint) siblingPaintTree
      [0, 0] headlineAttrs (some "dark") rfl rfl).2.2.1 sgPaint
      ⟨"dark", "c2", "c1", "c1", "c1", "c1", none⟩
      [⟨"light", "c1", "c2", "c2", "c2", "c2", none⟩]
      ⟨"dark", "c2", "c1", "c1", "c1", "c1", none⟩ "dark"
      rfl rfl rfl rfl rfl rfl).1 rfl
  · exact ((c4_paint_cascade_scoped (some sgPaint) siblingPaintTree
      [1, 0] headlineAttrs (some "light") rfl rfl).2.2.1 sgPaint
      ⟨"dark", "c2", "c1", "c1", "c1", "c1", none⟩
      [⟨"light", "c1", "c2", "c2", "c2", "c2", none⟩]
      ⟨"light", "c1", "c2", "c2", "c2", "c2", none⟩ "light"
      rfl rfl rfl rfl rfl rfl).1 rfl
  · exact (c4_paint_cascade_scoped (some sgPaint) siblingPaintTree [0, 1]
      headlineAttrsExp (some "dark") rfl rfl).2.1 rfl

theorem runTrace_step (R : RenderFam) (k : Kind) (ks : List Kind)
    (d d' : DocNode) (hd : passNode R k d = d') :
    runTrace R (k :: ks) d = traceNode k [] d ++ runTrace R ks d' := by
  rw [← hd]
  rfl

/-- C5 (refuted by the code): on the auto-initialization path the
cascade does not run after rendering. Whenever `styleguideManager.init`
reaches `injectCSS` (truthy styleguide data), the cascade event is
emitted strictly before every render event of `initFunnelWind`; on a
concrete document holding a section with a headline, the observed order
is cascade, then the headline render, then the section render — so the
cascade operates on a document in which no instance has been resolved
yet. -/
theorem c5_cascade_runs_first (R : RenderFam) :
    (∀ (cur arg : Option StyleguideData)
        (emb : Option (ParseResult StyleguideData)) (doc : DocNode),
      sgInitRunsCascade cur arg emb = true →
      autoInitEvents R cur arg emb doc
        = InitEvent.cascade ::
          (initFunnelWindTrace R doc).map
            (fun e => InitEvent.render e.1 e.2.1))
    ∧ autoInitEvents R none (some sgDemo) none
        (.cf .sectionEl (.cons (.cf .headline .nil) .nil))
      = [InitEvent.cascade, InitEvent.render .headline [0],
         InitEvent.render .sectionEl []] := by
  constructor
  · intro cur arg emb doc hrun
    simp [autoInitEvents, hrun]
  · have hrun : sgInitRunsCascade none (some sgDemo) none = true := rfl
    simp only [autoInitEvents, hrun, initFunnelWindTrace, tagOrder]
    rw [runTrace_step R .icon _ (DocNode.cf .sectionEl (.cons (.cf .headline .nil) .nil)) (DocNode.cf .sectionEl (.cons (.cf .headline .nil) .nil)) rfl,
      runTrace_step R .divider _ (DocNode.cf .sectionEl (.cons (.cf .headline .nil) .nil)) (DocNode.cf .sectionEl (.cons (.cf .headline .nil) .nil)) rfl,
      runTrace_step R .image _ (DocNode.cf .sectionEl (.cons (.cf .headline .nil) .nil)) (DocNode.cf .sectionEl (.cons (.cf .headline .nil) .nil)) rfl,
      runTrace_step R .video _ (DocNode.cf .sectionEl (.cons (.cf .headline .nil) .nil)) (DocNode.cf .sectionEl (.cons (.cf .headline .nil) .nil)) rfl,
      runTrace_step R .headline _ (DocNode.cf .sectionEl (.cons (.cf .headline .nil) .nil)) (DocNode.cf .sectionEl (.cons (.raw (R .headline "")) .nil)) rfl,
      runTrace_step R .subheadline _ (DocNode.cf .sectionEl (.cons (.raw (R .headline "")) .nil)) (DocNode.cf .sectionEl (.cons (.raw (R .headline "")) .nil)) rfl,
      runTrace_step R .paragraph _ (DocNode.cf .sectionEl (.cons (.raw (R .headline "")) .nil)) (DocNode.cf .sectionEl (.cons (.raw (R .headline "")) .nil)) rfl,
      runTrace_step R .button _ (DocNode.cf .sectionEl (.cons (.raw (R .headline "")) .nil)) (DocNode.cf .sectionEl (.cons (.raw (R .headline "")) .nil)) rfl,
      runTrace_step R .inputEl _ (DocNode.cf .sectionEl (.cons (.raw (R .headline "")) .nil)) (DocNode.cf .sectionEl (.cons (.raw (R .headline "")) .nil)) rfl,
      runTrace_step R .textarea _ (DocNode.cf .sectionEl (.cons (.raw (R .headline "")) .nil)) (DocNode.cf .sectionEl (.cons (.raw (R .headline "")) .nil)) rfl,
      runTrace_step R .selectEl _ (DocNode.cf .sectionEl (.cons (.raw (R .headline "")) .nil)) (DocNode.cf .sectionEl (.cons (.raw (R .headline "")) .nil)) rfl,
      runTrace_step R .checkbox _ (DocNode.cf .sectionEl (.cons (.raw (R .headline "")) .nil)) (DocNode.cf .sectionEl (.cons (.raw (R .headline "")) .nil)) rfl,
      runTrace_step R .bulletList _ (DocNode.cf .sectionEl (.cons (.raw (R .headline "")) .nil)) (DocNode.cf .sectionEl (.cons (.raw (R .headline "")) .nil)) rfl,
      runTrace_step R .progressBar _ (DocNode.cf .sectionEl (.cons (.raw (R .headline "")) .nil)) (DocNode.cf .sectionEl (.cons (.raw (R .headline "")) .nil)) rfl,
      runTrace_step R .videoPopup _ (DocNode.cf .sectionEl (.cons (.raw (R .headline "")) .nil)) (DocNode.cf .sectionEl (.cons (.raw (R .headline "")) .nil)) rfl,
      runTrace_step R .countdown _ (DocNode.cf .sectionEl (.cons (.raw (R .headline "")) .nil)) (DocNode.cf .sectionEl (.cons (.raw (R .headline "")) .nil)) rfl,
      runTrace_step R .checkoutPh _ (DocNode.cf .sectionEl (.cons (.raw (R .headline "")) .nil)) (DocNode.cf .sectionEl (.cons (.raw (R .headline "")) .nil)) rfl,
      runTrace_step R .orderSummaryPh _ (DocNode.cf .sectionEl (.cons (.raw (R .headline "")) .nil)) (DocNode.cf .sectionEl (.cons (.raw (R .headline "")) .nil)) rfl,
      runTrace_step R .confirmationPh _ (DocNode.cf .sectionEl (.cons (.raw (R .headline "")) .nil)) (DocNode.cf .sectionEl (.cons (.raw (R .headline "")) .nil)) rfl,
      runTrace_step R .flex _ (DocNode.cf .sectionEl (.cons (.raw (R .headline "")) .nil)) (DocNode.cf .sectionEl (.cons (.raw (R .headline "")) .nil)) rfl,
      runTrace_step R .colInner _ (DocNode.cf .sectionEl (.cons (.raw (R .headline "")) .nil)) (DocNode.cf .sectionEl (.cons (.raw (R .headline "")) .nil)) rfl,
      runTrace_step R .col _ (DocNode.cf .sectionEl (.cons (.raw (R .headline "")) .nil)) (DocNode.cf .sectionEl (.cons (.raw (R .headline "")) .nil)) rfl,
      runTrace_step R .row _ (DocNode.cf .sectionEl (.cons (.raw (R .headline "")) .nil)) (DocNode.cf .sectionEl (.cons (.raw (R .headline "")) .nil)) rfl,
      runTrace_step R .sectionEl _ (DocNode.cf .sectionEl (.cons (.raw (R .headline "")) .nil)) (DocNode.raw (R .sectionEl (R .headline "" ++ ""))) rfl,
      runTrace_step R .popup _ (DocNode.raw (R .sectionEl (R .headline "" ++ ""))) (DocNode.raw (R .sectionEl (R .headline "" ++ ""))) rfl,
      runTrace_step R .page _ (DocNode.raw (R .sectionEl (R .headline "" ++ ""))) (DocNode.raw (R .sectionEl (R .headline "" ++ ""))) rfl]
    simp [traceNode, traceForest, serializeNode, serializeForest, runTrace]

/-- Witness for C5's general part at a concrete render family, store and
document. -/
theorem c5_cascade_runs_first_witness :
    autoInitEvents (fun _ s => s) none (some sgDemo) none
      (.cf .sectionEl (.cons (.cf .headline .nil) .nil))
      = InitEvent.cascade ::
        (initFunnelWindTrace (fun _ s => s)
          (.cf .sectionEl (.cons (.cf .headline .nil) .nil))).map
          (fun e => InitEvent.render e.1 e.2.1) :=
  (c5_cascade_runs_first (fun _ s => s)).1 none (some sgDemo) none
    (.cf .sectionEl (.cons (.cf .headline .nil) .nil)) rfl

theorem pathLt_append (p : List ℕ) : ∀ (x y : List ℕ),
    pathLt (p ++ x) (p ++ y) = pathLt x y := by
  induction p with
  | nil => intro x y; rfl
  | cons a p ih =>
    intro x y
    simp only [List.cons_append, pathLt]
    rw [if_neg (lt_irrefl a), if_pos trivial]
    exact ih x y

theorem pathLt_cons_lt {a b : ℕ} (x y : List ℕ) (h : a < b) :
    pathLt (a :: x) (b :: y) = true := by
  simp only [pathLt]
  rw [if_pos h]

theorem pathLt_irrefl : ∀ p : List ℕ, pathLt p p = false
  | [] => rfl
  | a :: p => by
    simp only [pathLt]
    rw [if_neg (lt_irrefl a), if_pos trivial]
    exact pathLt_irrefl p

mutual
theorem nodeAt_append : ∀ (n : DocNode) (p q : List ℕ),
    nodeAt n (p ++ q) = (nodeAt n p).bind (fun m => nodeAt m q)
  | .raw _, [], _ => rfl
  | .cf _ _, [], _ => rfl
  | .raw _, _ :: _, _ => rfl
  | .cf _ f, i :: p, q => forestNodeAt_append f i p q
theorem forestNodeAt_append : ∀ (f : DocForest) (i : ℕ) (p q : List ℕ),
    forestNodeAt f i (p ++ q)
      = (forestNodeAt f i p).bind (fun m => nodeAt m q)
  | .nil, _, _, _ => rfl
  | .cons n _, 0, p, q => nodeAt_append n p q
  | .cons _ f, i + 1, p, q => forestNodeAt_append f i p q
end

mutual
theorem traceNode_sound (k : Kind) : ∀ (p0 : List ℕ) (n : DocNode)
    (e : TraceEvent), e ∈ traceNode k p0 n →
    e.1 = k ∧ ∃ q f, e.2.1 = p0 ++ q
      ∧ nodeAt n q = some (.cf k f) ∧ e.2.2 = serializeForest f
  | p0, .raw s, e, h => by simp [traceNode] at h
  | p0, .cf k' f, e, h => by
    by_cases hk : k' = k
    · simp only [traceNode, if_pos hk, List.mem_singleton] at h
      subst h
      exact ⟨rfl, [], f, by simp, by rw [hk]; rfl, rfl⟩
    · simp only [traceNode, if_neg hk] at h
      obtain ⟨hk1, j, q, f', hp, hn, hc⟩ := traceForest_sound k p0 0 f e h
      refine ⟨hk1, (0 + j) :: q, f', by simpa using hp, ?_, hc⟩
      simpa [nodeAt, Nat.zero_add] using hn
theorem traceForest_sound (k : Kind) : ∀ (p0 : List ℕ) (i : ℕ)
    (f : DocForest) (e : TraceEvent), e ∈ traceForest k p0 i f →
    e.1 = k ∧ ∃ j q f', e.2.1 = p0 ++ [i + j] ++ q
      ∧ forestNodeAt f j q = some (.cf k f') ∧ e.2.2 = serializeForest f'
  | p0, i, .nil, e, h => by simp [traceForest] at h
  | p0, i, .cons n f, e, h => by
    simp only [traceForest, List.mem_append] at h
    rcases h with h | h
    · obtain ⟨hk1, q, f', hp, hn, hc⟩ := traceNode_sound k (p0 ++ [i]) n e h
      refine ⟨hk1, 0, q, f', ?_, hn, hc⟩
      simpa [List.append_assoc] using hp
    · obtain ⟨hk1, j, q, f', hp, hn, hc⟩ := traceForest_sound k p0 (i + 1) f e h
      refine ⟨hk1, j + 1, q, f', ?_, hn, hc⟩
      have hij : i + 1 + j = i + (j + 1) := by omega
      rw [hp, hij]
end

mutual
theorem traceNode_pairwise (k : Kind) : ∀ (p0 : List ℕ) (n : DocNode),
    List.Pairwise (fun e1 e2 : TraceEvent => pathLt e1.2.1 e2.2.1 = true)
      (traceNode k p0 n)
  | _, .raw _ => by simp [traceNode]
  | p0, .cf k' f => by
    by_cases hk : k' = k
    · simp [traceNode, if_pos hk]
    · simp only [traceNode, if_neg hk]
      exact traceForest_pairwise k p0 0 f
theorem traceForest_pairwise (k : Kind) : ∀ (p0 : List ℕ) (i : ℕ)
    (f : DocForest),
    List.Pairwise (fun e1 e2 : TraceEvent => pathLt e1.2.1 e2.2.1 = true)
      (traceForest k p0 i f)
  | _, _, .nil => by simp [traceForest]
  | p0, i, .cons n f => by
    simp only [traceForest]
    refine List.pairwise_append.mpr ⟨traceNode_pairwise k (p0 ++ [i]) n,
      traceForest_pairwise k p0 (i + 1) f, ?_⟩
    intro e1 h1 e2 h2
    obtain ⟨_, q1, f1, hp1, _, _⟩ := traceNode_sound k (p0 ++ [i]) n e1 h1
    obtain ⟨_, j, q2, f2, hp2, _, _⟩ :=
      traceForest_sound k p0 (i + 1) f e2 h2
    rw [hp1, hp2]
    have h3 : pathLt (p0 ++ (i :: q1)) (p0 ++ ((i + 1 + j) :: q2))
        = true := by
      rw [pathLt_append]
      exact pathLt_cons_lt _ _ (by omega)
    simpa [List.append_assoc] using h3
end

mutual
theorem passNode_dead (R : RenderFam) (k : Kind) : ∀ (n : DocNode)
    (p : List ℕ),
    (nodeAt n p = none ∨ ∃ s, nodeAt n p = some (.raw s)) →
    nodeAt (passNode R k n) p = none
      ∨ ∃ s, nodeAt (passNode R k n) p = some (.raw s)
  | .raw s, p, h => by simpa [passNode] using h
  | .cf k' f, [], h => by
    rcases h with h | ⟨s, h⟩ <;> simp [nodeAt] at h
  | .cf k' f, i :: p, h => by
    simp only [nodeAt] at h
    by_cases hk : k' = k
    · simp only [passNode, if_pos hk]
      exact Or.inl rfl
    · simp only [passNode, if_neg hk, nodeAt]
      exact passForest_dead R k f i p h
theorem passForest_dead (R : RenderFam) (k : Kind) : ∀ (f : DocForest)
    (i : ℕ) (p : List ℕ),
    (forestNodeAt f i p = none ∨ ∃ s, forestNodeAt f i p = some (.raw s)) →
    forestNodeAt (passForest R k f) i p = none
      ∨ ∃ s, forestNodeAt (passForest R k f) i p = some (.raw s)
  | .nil, _, _, h => h
  | .cons n _, 0, p, h => passNode_dead R k n p h
  | .cons _ f, i + 1, p, h => passForest_dead R k f i p h
end

mutual
theorem passNode_kills (R : RenderFam) (k : Kind) : ∀ (n : DocNode)
    (p : List ℕ) (f : DocForest), nodeAt n p = some (.cf k f) →
    nodeAt (passNode R k n) p = none
      ∨ ∃ s, nodeAt (passNode R k n) p = some (.raw s)
  | .raw _, [], f, h => by simp [nodeAt] at h
  | .raw _, _ :: _, f, h => by simp [nodeAt] at h
  | .cf k' f0, [], f, h => by
    simp only [nodeAt, Option.some_inj] at h
    have hk : k' = k := by
      cases h
      rfl
    simp only [passNode, if_pos hk]
    exact Or.inr ⟨_, rfl⟩
  | .cf k' f0, i :: p, f, h => by
    simp only [nodeAt] at h
    by_cases hk : k' = k
    · simp only [passNode, if_pos hk]
      exact Or.inl rfl
    · simp only [passNode, if_neg hk, nodeAt]
      exact passForest_kills R k f0 i p f h
theorem passForest_kills (R : RenderFam) (k : Kind) : ∀ (f0 : DocForest)
    (i : ℕ) (p : List ℕ) (f : DocForest),
    forestNodeAt f0 i p = some (.cf k f) →
    forestNodeAt (passForest R k f0) i p = none
      ∨ ∃ s, forestNodeAt (passForest R k f0) i p = some (.raw s)
  | .nil, _, _, f, h => by simp [forestNodeAt] at h
  | .cons n _, 0, p, f, h => passNode_kills R k n p f h
  | .cons _ f0, i + 1, p, f, h => passForest_kills R k f0 i p f h
end

theorem runTrace_kind_mem (R : RenderFam) : ∀ (ks : List Kind) (d : DocNode)
    (e : TraceEvent), e ∈ runTrace R ks d → e.1 ∈ ks
  | [], _, e, h => by simp [runTrace] at h
  | k :: ks, d, e, h => by
    simp only [runTrace, List.mem_append] at h
    rcases h with h | h
    · exact (traceNode_sound k [] d e h).1 ▸ List.mem_cons_self _ _
    · exact List.mem_cons_of_mem _ (runTrace_kind_mem R ks _ e h)

theorem runTrace_dead_path (R : RenderFam) : ∀ (ks : List Kind)
    (d : DocNode) (p : List ℕ),
    (nodeAt d p = none ∨ ∃ s, nodeAt d p = some (.raw s)) →
    ∀ e ∈ runTrace R ks d, e.2.1 ≠ p
  | [], _, _, _, e, he => by simp [runTrace] at he
  | k :: ks, d, p, hd, e, he => by
    simp only [runTrace, List.mem_append] at he
    rcases he with he | he
    · obtain ⟨_, q, f, hp, hn, _⟩ := traceNode_sound k [] d e he
      intro hep
      rw [hep] at hp
      rw [show p = q by simpa using hp] at hd
      rcases hd with hd | ⟨s, hd⟩ <;> rw [hn] at hd <;> simp at hd
    · exact runTrace_dead_path R ks (passNode R k d) p
        (passNode_dead R k d p hd) e he

theorem runTrace_pairwise (R : RenderFam) : ∀ (ks : List Kind)
    (d : DocNode),
    List.Pairwise (fun a b => kindRank a < kindRank b) ks →
    List.Pairwise (fun e1 e2 : TraceEvent =>
      kindRank e1.1 ≤ kindRank e2.1
      ∧ (e1.1 = e2.1 → pathLt e1.2.1 e2.2.1 = true)
      ∧ e1.2.1 ≠ e2.2.1) (runTrace R ks d)
  | [], _, _ => by simp [runTrace]
  | k :: ks, d, hks => by
    simp only [runTrace]
    refine List.pairwise_append.mpr
      ⟨?_, runTrace_pairwise R ks _ (List.Pairwise.of_cons hks), ?_⟩
    · refine (traceNode_pairwise k [] d).imp_of_mem ?_
      intro e1 e2 h1 h2 hlt
      have hk1 := (traceNode_sound k [] d e1 h1).1
      have hk2 := (traceNode_sound k [] d e2 h2).1
      refine ⟨by rw [hk1, hk2], fun _ => hlt, ?_⟩
      intro hpp
      rw [hpp, pathLt_irrefl] at hlt
      exact Bool.false_ne_true hlt
    · intro e1 h1 e2 h2
      have hk1 := (traceNode_sound k [] d e1 h1).1
      have hk2mem := runTrace_kind_mem R ks _ e2 h2
      have hrank : kindRank k < kindRank e2.1 :=
        (List.pairwise_cons.mp hks).1 _ hk2mem
      refine ⟨by rw [hk1]; exact hrank.le, ?_, ?_⟩
      · intro heq
        rw [hk1] at heq
        rw [heq] at hrank
        exact absurd hrank (lt_irrefl _)
      · obtain ⟨_, q, f, hp, hn, _⟩ := traceNode_sound k [] d e1 h1
        have hq : e1.2.1 = q := by simpa using hp
        have hkill := passNode_kills R k d e1.2.1 f (by rw [hq]; exact hn)
        intro hpp
        exact runTrace_dead_path R ks (passNode R k d) e1.2.1 hkill e2 h2
          hpp.symm

mutual
theorem serializeNode_infix : ∀ (n : DocNode) (q : List ℕ) (s : String),
    nodeAt n q = some (.raw s) →
    ∃ pre post, serializeNode n = pre ++ s ++ post
  | .raw t, [], s, h => by
    have ht : t = s := by
      simpa [nodeAt] using h
    exact ⟨"", "", by simp [serializeNode, ht]⟩
  | .raw _, _ :: _, s, h => by simp [nodeAt] at h
  | .cf _ _, [], s, h => by simp [nodeAt] at h
  | .cf k f, i :: q, s, h => by
    obtain ⟨pre, post, hf⟩ := serializeForest_infix f i q s h
    refine ⟨"<" ++ tagName k ++ ">" ++ pre,
      post ++ "</" ++ tagName k ++ ">", ?_⟩
    simp only [serializeNode, hf]
    simp [String.append_assoc]
theorem serializeForest_infix : ∀ (f : DocForest) (i : ℕ) (q : List ℕ)
    (s : String), forestNodeAt f i q = some (.raw s) →
    ∃ pre post, serializeForest f = pre ++ s ++ post
  | .nil, _, _, s, h => by simp [forestNodeAt] at h
  | .cons n f, 0, q, s, h => by
    obtain ⟨pre, post, hn⟩ := serializeNode_infix n q s h
    refine ⟨pre, post ++ serializeForest f, ?_⟩
    simp only [serializeForest, hn]
    simp [String.append_assoc]
  | .cons n f, i + 1, q, s, h => by
    obtain ⟨pre, post, hf⟩ := serializeForest_infix f i q s h
    refine ⟨serializeNode n ++ pre, post, ?_⟩
    simp only [serializeForest, hf]
    simp [String.append_assoc]
end

/-- C1: the scheduler's event trace renders every atomic/content kind
before any container kind (the trace is ordered by the tag-order rank,
and every atomic kind ranks strictly below every container kind), within
one tag kind instances appear in document (preorder) order, no path is
resolved twice, and when a container is rendered, the output of any
already-rendered descendant — a raw node in the container's subtree —
appears byte-identical inside the container's captured content. -/
theorem c1_schedule_order_capture (R : RenderFam) (d : DocNode) :
    List.Pairwise (fun e1 e2 : TraceEvent =>
      kindRank e1.1 ≤ kindRank e2.1
      ∧ (e1.1 = e2.1 → pathLt e1.2.1 e2.2.1 = true)
      ∧ e1.2.1 ≠ e2.2.1) (initFunnelWindTrace R d)
    ∧ (∀ k1 k2 : Kind, atomicKind k1 = true → containerKind k2 = true →
        kindRank k1 < kindRank k2)
    ∧ (∀ (d' : DocNode) (k : Kind) (p q : List ℕ) (c s : String),
        (k, p, c) ∈ traceNode k [] d' →
        nodeAt d' (p ++ q) = some (DocNode.raw s) →
        ∃ pre post, c = pre ++ s ++ post) := by
  refine ⟨runTrace_pairwise R tagOrder d (by decide), by decide, ?_⟩
  intro d' k p q c s hmem hraw
  obtain ⟨_, q0, f, hp, hn, hc⟩ := traceNode_sound k [] d' (k, p, c) hmem
  have hpq : p = q0 := by simpa using hp
  rw [nodeAt_append, hpq, hn] at hraw
  have hc2 : c = serializeForest f := by simpa using hc
  cases q with
  | nil => simp [nodeAt] at hraw
  | cons i q' =>
    simp [nodeAt] at hraw
    obtain ⟨pre, post, hf⟩ := serializeForest_infix f i q' s hraw
    exact ⟨pre, post, hc2.trans hf⟩

/-- Witness for C1's capture conjunct: a section whose child is an
already-rendered raw leaf captures the leaf's markup verbatim. -/
theorem c1_schedule_order_capture_witness :
    ∃ pre post,
      ("leafHtml" ++ "" : String) = pre ++ "leafHtml" ++ post :=
  (c1_schedule_order_capture (fun _ s => s) (.raw "")).2.2
    (.cf .sectionEl (.cons (.raw "leafHtml") .nil)) .sectionEl []
    [0] ("leafHtml" ++ "") "leafHtml" (by decide) rfl

end CF
